import Mathlib

/-!
Verification of the decimal rescale engine (`arrow-cast/src/cast/decimal.rs`)
and the temporal part-extraction engine (`arrow-arith/src/temporal.rs`) of the
columnar compute-kernel fragment.

Arrays are modelled as `List (Option α)`: one entry per element, `none` for a
null.  Machine integers (`i32`, `i64`, `i128`, `i256`) are modelled as `Int`
together with explicit two's-complement wrapping (`wrapInt w`) at every point
where the source performs a `*_wrapping` operation, and explicit range checks
(`inRangeInt w`) where the source performs a `checked_*` operation or a
narrowing conversion.
-/

namespace ArrowVerify

set_option maxRecDepth 100000

/-- The error type, mirroring the `ArrowError` variants used by the two
kernels. -/
inductive ArrowError where
  | castError (msg : String)
  | computeError (msg : String)
  | invalidArgumentError (msg : String)
  deriving Repr, DecidableEq

/-! ## Fixed-width two's-complement integer model -/

/-- Reduce an unbounded integer to the two's-complement representative of
width `w` (the value an overflowing `w`-bit machine operation produces). -/
def wrapInt (w : Nat) (z : Int) : Int :=
  (z + 2 ^ (w - 1)) % 2 ^ w - 2 ^ (w - 1)

/-- `z` is representable as a signed `w`-bit integer. -/
def inRangeInt (w : Nat) (z : Int) : Prop :=
  -(2 ^ (w - 1)) ≤ z ∧ z < 2 ^ (w - 1)

instance (w : Nat) (z : Int) : Decidable (inRangeInt w z) := by
  unfold inRangeInt; infer_instance

/-- Rust `div_wrapping` on a signed `w`-bit integer: truncating division,
wrapping on the single overflowing case `MIN / -1`. -/
def divWrapping (w : Nat) (a b : Int) : Int := wrapInt w (a.tdiv b)

/-- Rust `mod_wrapping`: remainder of truncating division (sign of the
dividend). -/
def modWrapping (w : Nat) (a b : Int) : Int := wrapInt w (a.tmod b)

/-- Rust `add_wrapping`. -/
def addWrapping (w : Nat) (a b : Int) : Int := wrapInt w (a + b)

/-- Rust `sub_wrapping`. -/
def subWrapping (w : Nat) (a b : Int) : Int := wrapInt w (a - b)

/-- Rust `mul_wrapping`. -/
def mulWrapping (w : Nat) (a b : Int) : Int := wrapInt w (a * b)

/-- Rust `neg_wrapping`. -/
def negWrapping (w : Nat) (a : Int) : Int := wrapInt w (-a)

/-- Rust `pow_wrapping` for a nonnegative exponent.  Wrapping each
intermediate product agrees with wrapping the exact power once, because
congruence mod `2 ^ w` is preserved by multiplication. -/
def powWrapping (w : Nat) (a : Int) (e : Nat) : Int := wrapInt w (a ^ e)

/-- Rust `checked_mul` on a signed `w`-bit integer. -/
def mulChecked (w : Nat) (a b : Int) : Option Int :=
  if inRangeInt w (a * b) then some (a * b) else none

/-- Modelled from the spec: the external numeric capability interface's
checked exponentiation (`pow_checked`), which fails with an error when the
power overflows the `w`-bit type.  For a base `≥ 2` the intermediate products
are all bounded by the final power, so checking only the final power is
equivalent to the source's step-by-step check. -/
def powChecked (w : Nat) (a : Int) (e : Nat) : Except ArrowError Int :=
  if inRangeInt w (a ^ e) then .ok (a ^ e)
  else .error (.computeError "Overflow happened on pow")

/-- Rust `as u32` conversion of a signed integer (two's-complement
reinterpretation). -/
def u32Cast (z : Int) : Nat := (z % (2 : Int) ^ 32).toNat

/-- Rust `i64::try_into() : Result<i32>` style checked narrowing to a signed
`w`-bit integer, as an `Option`. -/
def narrowTo (w : Nat) (z : Int) : Option Int :=
  if inRangeInt w z then some z else none

/-! ## Columnar array primitives (external array abstraction)

Modelled from the spec: the array abstraction's element-wise maps.  A
`List (Option α)` carries one entry per element, `none` encoding a null. -/

/-- `PrimitiveArray::unary`: infallible element-wise map; nulls propagate. -/
def unaryArr (f : α → β) (xs : List (Option α)) : List (Option β) :=
  xs.map (Option.map f)

/-- `PrimitiveArray::unary_opt`: element-wise map where `none` results become
nulls; input nulls propagate. -/
def unaryOpt (f : α → Option β) (xs : List (Option α)) : List (Option β) :=
  xs.map (fun x => x.bind f)

/-- `PrimitiveArray::try_unary`: fallible element-wise map; the first error
aborts the whole call.  Nulls propagate without being inspected. -/
def tryUnary (f : α → Except ArrowError β) :
    List (Option α) → Except ArrowError (List (Option β))
  | [] => .ok []
  | none :: xs => do
    let rest ← tryUnary f xs
    .ok (none :: rest)
  | some x :: xs => do
    let v ← f x
    let rest ← tryUnary f xs
    .ok (some v :: rest)

/-! ## Decimal rescale engine (`arrow-cast/src/cast/decimal.rs`)

The engine is generic over 128-bit and 256-bit decimal types; the claims are
settled on the `Decimal128 → Decimal128` instantiation, for which
`DecimalCast::from_decimal` is the total identity embedding (`Some self`). -/

/-- `Decimal128Type::MAX_PRECISION`. -/
def decimal128MaxPrecision : Nat := 38

/-- `Decimal128Type::MAX_SCALE`. -/
def decimal128MaxScale : Int := 38

/-- Modelled from the spec: the external precision/scale validity predicate
(`DecimalType::is_valid_decimal_precision`) — "does this value fit in P
decimal digits?", i.e. `|v| ≤ 10 ^ p - 1`. -/
def isValidDecimalPrecision (v : Int) (p : Nat) : Bool :=
  -(10 ^ p - 1) ≤ v && v ≤ 10 ^ p - 1

/-- Modelled from the spec: the external strict-mode precision validator
(`DecimalType::validate_decimal_precision`).  It receives only the already
converted value and the output precision, so its error can name only those
(not the pre-conversion input value and not the output scale). -/
def validateDecimalPrecision (v : Int) (p : Nat) : Except ArrowError Unit :=
  if isValidDecimalPrecision v p then .ok ()
  else
    .error (.castError ("Cannot cast to Decimal128 of precision " ++
      toString p ++ ". Overflowing on " ++ toString v))

/-- Modelled from the spec: the external structural parameter check
(`validate_decimal_precision_and_scale`): precision in `1..=MAX_PRECISION`,
scale (possibly negative) at most `MAX_SCALE`. -/
def validateDecimalPrecisionAndScale (p : Nat) (s : Int) :
    Except ArrowError Unit :=
  if 1 ≤ p ∧ p ≤ decimal128MaxPrecision ∧ s ≤ decimal128MaxScale then .ok ()
  else .error (.invalidArgumentError "invalid precision or scale")

/-- `cast_decimal_to_decimal_error::<I, O>` (decimal.rs lines 68-87): builds
the cast error raised when an element's conversion overflows, naming the
target type, the output precision and scale, and the input value. -/
def castDecimalToDecimalError (outputPrecision : Nat) (outputScale : Int)
    (x : Int) : ArrowError :=
  .castError ("Cannot cast to Decimal128(" ++ toString outputPrecision ++
    ", " ++ toString outputScale ++ "). Overflowing on " ++ toString x)

/-- The per-element closure `f` of `convert_to_smaller_scale_decimal`
(decimal.rs lines 124-136): truncating divmod by `div` followed by
round-half-away-from-zero, all in `i128` wrapping arithmetic; the final
`O::Native::from_decimal` is the identity embedding for
`Decimal128 → Decimal128` and hence always `some`.  `half` and `half_neg`
are computed once outside the closure in the source; they are pure, so the
value is unchanged. -/
def smallerScaleElem (div x : Int) : Option Int :=
  let half := divWrapping 128 div 2
  let halfNeg := negWrapping 128 half
  let d := divWrapping 128 x div
  let r := modWrapping 128 x div
  let adjusted :=
    if x ≥ 0 then (if r ≥ half then addWrapping 128 d 1 else d)
    else (if r ≤ halfNeg then subWrapping 128 d 1 else d)
  some adjusted

/-- `convert_to_smaller_scale_decimal` (decimal.rs lines 89-152),
`Decimal128 → Decimal128` instantiation.  `safe` is
`CastOptions::safe`. -/
def convertToSmallerScaleDecimal (arr : List (Option Int))
    (inputPrecision : Nat) (inputScale : Int)
    (outputPrecision : Nat) (outputScale : Int) (safe : Bool) :
    Except ArrowError (List (Option Int)) := do
  let deltaScale := inputScale - outputScale
  -- (input_precision as i8) - delta_scale < (output_precision as i8);
  -- precision is at most 38 for a valid decimal array, so the `i8` casts
  -- are the identity.
  let isInfallibleCast := (inputPrecision : Int) - deltaScale <
    (outputPrecision : Int)
  let div ← powChecked 128 10 (u32Cast deltaScale)
  if isInfallibleCast then do
    let _ ← validateDecimalPrecisionAndScale outputPrecision outputScale
    -- `f(x).unwrap()`: the closure is total here, `getD 0` models `unwrap`.
    .ok (unaryArr (fun x => (smallerScaleElem div x).getD 0) arr)
  else if safe then
    .ok (unaryOpt (fun x =>
      (smallerScaleElem div x).filter
        (fun v => isValidDecimalPrecision v outputPrecision)) arr)
  else
    tryUnary (fun x => do
      let v ← match smallerScaleElem div x with
        | some v => Except.ok v
        | none =>
          Except.error (castDecimalToDecimalError outputPrecision outputScale x)
      let _ ← validateDecimalPrecision v outputPrecision
      Except.ok v) arr

/-- The per-element closure `f` of `convert_to_bigger_or_equal_scale_decimal`
(decimal.rs line 181): checked multiplication by `mul` (the
`O::Native::from_decimal` embedding is the identity for
`Decimal128 → Decimal128`). -/
def biggerScaleElem (mul x : Int) : Option Int := mulChecked 128 x mul

/-- `convert_to_bigger_or_equal_scale_decimal` (decimal.rs lines 154-197),
`Decimal128 → Decimal128` instantiation. -/
def convertToBiggerOrEqualScaleDecimal (arr : List (Option Int))
    (inputPrecision : Nat) (inputScale : Int)
    (outputPrecision : Nat) (outputScale : Int) (safe : Bool) :
    Except ArrowError (List (Option Int)) := do
  let deltaScale := outputScale - inputScale
  let mul ← powChecked 128 10 (u32Cast deltaScale)
  let isInfallibleCast := (inputPrecision : Int) + deltaScale ≤
    (outputPrecision : Int)
  if isInfallibleCast then do
    let _ ← validateDecimalPrecisionAndScale outputPrecision outputScale
    -- `from_decimal(x).unwrap().mul_wrapping(mul)`
    .ok (unaryArr (fun x => mulWrapping 128 x mul) arr)
  else if safe then
    .ok (unaryOpt (fun x =>
      (biggerScaleElem mul x).filter
        (fun v => isValidDecimalPrecision v outputPrecision)) arr)
  else
    tryUnary (fun x => do
      let v ← match biggerScaleElem mul x with
        | some v => Except.ok v
        | none =>
          Except.error (castDecimalToDecimalError outputPrecision outputScale x)
      let _ ← validateDecimalPrecision v outputPrecision
      Except.ok v) arr

/-- `cast_decimal_to_decimal_same_type` (decimal.rs lines 200-240): identity
copy when the scale is unchanged and the precision does not shrink, otherwise
dispatch to the growing/shrinking conversion.  The final
`with_precision_and_scale` re-tags array metadata after re-checking the
output precision and scale. -/
def castDecimalToDecimalSameType (arr : List (Option Int))
    (inputPrecision : Nat) (inputScale : Int)
    (outputPrecision : Nat) (outputScale : Int) (safe : Bool) :
    Except ArrowError (List (Option Int)) := do
  let out ←
    if inputScale = outputScale ∧ inputPrecision ≤ outputPrecision then
      .ok arr
    else if inputScale ≤ outputScale then
      convertToBiggerOrEqualScaleDecimal arr inputPrecision inputScale
        outputPrecision outputScale safe
    else
      convertToSmallerScaleDecimal arr inputPrecision inputScale
        outputPrecision outputScale safe
  let _ ← validateDecimalPrecisionAndScale outputPrecision outputScale
  .ok out

/-! ## String-to-decimal parsing (`parse_string_to_decimal_native`)

Strings are handled as their character lists.  The external string and
big-integer helpers (`str::trim`, `str::split('.')`, `i256::from_string`,
`format!`) are modelled below at that level. -/

/-- Modelled from the spec: `str::trim` — drop leading and trailing
whitespace. -/
def trimChars (cs : List Char) : List Char :=
  ((cs.dropWhile Char.isWhitespace).reverse.dropWhile Char.isWhitespace).reverse

/-- Modelled from the spec: `str::split('.')` — split at every dot, keeping
empty pieces; always returns at least one piece. -/
def splitOnDot : List Char → List (List Char)
  | [] => [[]]
  | c :: rest =>
    if c = '.' then [] :: splitOnDot rest
    else
      match splitOnDot rest with
      | [] => [[c]]
      | p :: ps => (c :: p) :: ps

/-- Accumulating decimal digit parser: `none` on the first non-digit. -/
def digitsValAux : Nat → List Char → Option Nat
  | acc, [] => some acc
  | acc, c :: cs =>
    if c.isDigit then digitsValAux (acc * 10 + (c.toNat - 48)) cs else none

/-- Parse a non-empty all-digit character list to its value. -/
def parseDigitsNat (cs : List Char) : Option Nat :=
  match cs with
  | [] => none
  | _ => digitsValAux 0 cs

/-- Modelled from the spec: the external `i256::from_string` — parse an
optionally signed decimal integer; `none` on empty input, a non-digit, or
256-bit overflow. -/
def i256FromChars (cs : List Char) : Option Int :=
  match cs with
  | [] => none
  | c :: rest =>
    if c = '-' then (parseDigitsNat rest).bind fun n => narrowTo 256 (-(n : Int))
    else if c = '+' then (parseDigitsNat rest).bind fun n => narrowTo 256 (n : Int)
    else (parseDigitsNat (c :: rest)).bind fun n => narrowTo 256 (n : Int)

/-- Decimal digits of `n`, most significant first; `fuel ≥ n` makes the
result independent of `fuel`.  (Explicit fuel keeps the recursion
structural.) -/
def natDigitsAux : Nat → Nat → List Char
  | 0, _ => []
  | Nat.succ fuel, n =>
    if n = 0 then [] else natDigitsAux fuel (n / 10) ++ [Nat.digitChar (n % 10)]

/-- Decimal rendering of a natural number. -/
def natToChars (n : Nat) : List Char :=
  if n = 0 then ['0'] else natDigitsAux n n

/-- Modelled from the spec: `format!` decimal rendering of a signed
integer. -/
def intToChars (v : Int) : List Char :=
  if v < 0 then '-' :: natToChars v.natAbs else natToChars v.toNat

/-- Modelled from the spec: the `format!` padding specifier `0<w` —
left-justify, padding on the right with zeros to width `w`. -/
def padRightZeros (cs : List Char) (w : Nat) : List Char :=
  cs ++ List.replicate (w - cs.length) '0'

/-- Pack a character list back into a string (for error messages). -/
def charsStr (cs : List Char) : String := String.mk cs

/-- `parse_string_to_decimal_native` (decimal.rs lines 285-381), `Decimal128`
instantiation: the final `T::Native::from_decimal` narrowing is the
`i256 → i128` range check. -/
def parseStringToDecimalNative (valueStr : String) (scale : Nat) :
    Except ArrowError Int := do
  let cs := trimChars valueStr.data
  let parts := splitOnDot cs
  if parts.length > 2 then
    Except.error (.invalidArgumentError
      ("Invalid decimal format: \"" ++ charsStr cs ++ "\""))
  else do
    let p0 := parts.headD []
    let signAndRest :=
      if p0.isEmpty then (false, p0)
      else if p0.headD ' ' = '-' then (true, p0.tail)
      else if p0.headD ' ' = '+' then (false, p0.tail)
      else (false, p0)
    let negative := signAndRest.1
    let integers := signAndRest.2
    let decimals := if parts.length = 2 then parts.getD 1 [] else []
    if ¬integers.isEmpty ∧ ¬(integers.headD ' ').isDigit then
      Except.error (.invalidArgumentError
        ("Invalid decimal format: \"" ++ charsStr cs ++ "\""))
    else if ¬decimals.isEmpty ∧ ¬(decimals.headD ' ').isDigit then
      Except.error (.invalidArgumentError
        ("Invalid decimal format: \"" ++ charsStr cs ++ "\""))
    else do
      let numberDecimals ←
        if decimals.length > scale then do
          let decimalNumber ←
            match i256FromChars decimals with
            | some v => Except.ok v
            | none =>
              Except.error (.invalidArgumentError
                ("Cannot parse decimal format: " ++ charsStr cs))
          let div ← powChecked 256 10 (decimals.length - scale)
          let half := divWrapping 256 div 2
          let halfNeg := negWrapping 256 half
          let d := divWrapping 256 decimalNumber div
          let r := modWrapping 256 decimalNumber div
          let adjusted :=
            if decimalNumber ≥ 0 then
              (if r ≥ half then addWrapping 256 d 1 else d)
            else (if r ≤ halfNeg then subWrapping 256 d 1 else d)
          let integersV ←
            if ¬integers.isEmpty then
              match i256FromChars integers with
              | some v =>
                Except.ok (mulWrapping 256 v (powWrapping 256 10 scale))
              | none =>
                Except.error (.invalidArgumentError
                  ("Cannot parse decimal format: " ++ charsStr cs))
            else Except.ok 0
          Except.ok (intToChars (addWrapping 256 integersV adjusted))
        else do
          let padding := if scale > decimals.length then scale else 0
          let decimalsP := padRightZeros decimals padding
          Except.ok (integers ++ decimalsP)
      let withSign := if negative then '-' :: numberDecimals else numberDecimals
      let value ←
        match i256FromChars withSign with
        | some v => Except.ok v
        | none =>
          Except.error (.invalidArgumentError
            ("Cannot convert " ++ charsStr cs ++ " to Decimal128: Overflow"))
      match narrowTo 128 value with
      | some v => Except.ok v
      | none =>
        Except.error (.invalidArgumentError
          ("Cannot convert " ++ charsStr cs ++ " to Decimal128"))

/-! ## Temporal part-extraction engine (`arrow-arith/src/temporal.rs`) -/

/-- The closed enumeration of extractable date/time parts
(temporal.rs lines 44-77). -/
inductive DatePart where
  | Quarter | Year | YearISO | Month | Week | WeekISO | Day
  | DayOfWeekSunday0 | DayOfWeekMonday0 | DayOfYear
  | Hour | Minute | Second | Millisecond | Microsecond | Nanosecond
  deriving Repr, DecidableEq

/-- `Display for DatePart` (= the `Debug` variant name). -/
def DatePart.name : DatePart → String
  | .Quarter => "Quarter"
  | .Year => "Year"
  | .YearISO => "YearISO"
  | .Month => "Month"
  | .Week => "Week"
  | .WeekISO => "WeekISO"
  | .Day => "Day"
  | .DayOfWeekSunday0 => "DayOfWeekSunday0"
  | .DayOfWeekMonday0 => "DayOfWeekMonday0"
  | .DayOfYear => "DayOfYear"
  | .Hour => "Hour"
  | .Minute => "Minute"
  | .Second => "Second"
  | .Millisecond => "Millisecond"
  | .Microsecond => "Microsecond"
  | .Nanosecond => "Nanosecond"

/-- `return_compute_error_with!(format!("{part} does not support"), type)`. -/
def notSupportedError (part : DatePart) (ty : String) : ArrowError :=
  .computeError (part.name ++ " does not support: " ++ ty)

/-! ### Civil-calendar model of the external chrono crate

Modelled from the spec: the proleptic Gregorian calendar and the ISO-8601
week numbering used by the external chrono date-time library. -/

/-- Civil date (year, month, day) of a day count relative to 1970-01-01,
proleptic Gregorian. -/
def civilFromDays (z : Int) : Int × Nat × Nat :=
  let z' := z + 719468
  let era := z' / 146097
  let doe := (z' - era * 146097).toNat
  let yoe := (doe - doe / 1460 + doe / 36524 - doe / 146096) / 365
  let y := (yoe : Int) + era * 400
  let doy := doe - (365 * yoe + yoe / 4 - yoe / 100)
  let mp := (5 * doy + 2) / 153
  let d := doy - (153 * mp + 2) / 5 + 1
  let m := if mp < 10 then mp + 3 else mp - 9
  (if m ≤ 2 then y + 1 else y, m, d)

/-- Day count relative to 1970-01-01 of a civil date, proleptic Gregorian. -/
def daysFromCivil (y : Int) (m d : Nat) : Int :=
  let y' := if m ≤ 2 then y - 1 else y
  let era := y' / 400
  let yoe := (y' - era * 400).toNat
  let doy := (153 * (if m > 2 then m - 3 else m + 9) + 2) / 5 + d - 1
  let doe := yoe * 365 + yoe / 4 - yoe / 100 + doy
  era * 146097 + (doe : Int) - 719468

/-- The chrono `NaiveDateTime`: a day count since 1970-01-01 plus a
nanosecond-of-day. -/
structure DateTimeM where
  days : Int
  nanoOfDay : Nat
  deriving Repr, DecidableEq

/-- First representable chrono day (year -262144). -/
def chronoMinDays : Int := daysFromCivil (-262144) 1 1

/-- Last representable chrono day (year 262143). -/
def chronoMaxDays : Int := daysFromCivil 262143 12 31

/-- chrono `DateTime::from_timestamp(secs, nsecs)`: Euclidean split into day
and second-of-day; `none` outside chrono's representable year range or for an
out-of-range nanosecond. -/
def dateTimeFromTimestamp (secs : Int) (nsecs : Nat) : Option DateTimeM :=
  let days := secs / 86400
  let sod := (secs % 86400).toNat
  if nsecs < 2000000000 ∧ chronoMinDays ≤ days ∧ days ≤ chronoMaxDays then
    some ⟨days, sod * 1000000000 + nsecs⟩
  else none

/-- `date32_to_datetime`: `from_timestamp(days * 86_400, 0)`. -/
def date32ToDatetime (d : Int) : Option DateTimeM :=
  dateTimeFromTimestamp (d * 86400) 0

/-- `date64_to_datetime`: Euclidean split of milliseconds into seconds and a
sub-second nanosecond part. -/
def date64ToDatetime (v : Int) : Option DateTimeM :=
  dateTimeFromTimestamp (v / 1000) ((v % 1000).toNat * 1000000)

/-- `timestamp_s_to_datetime`. -/
def timestampSToDatetime (v : Int) : Option DateTimeM :=
  dateTimeFromTimestamp v 0

/-- chrono `Datelike::year`. -/
def DateTimeM.yearOf (dt : DateTimeM) : Int := (civilFromDays dt.days).1

/-- chrono `Datelike::month`, in `1..=12`. -/
def DateTimeM.monthOf (dt : DateTimeM) : Nat := (civilFromDays dt.days).2.1

/-- chrono `Datelike::day`, in `1..=31`. -/
def DateTimeM.dayOf (dt : DateTimeM) : Nat := (civilFromDays dt.days).2.2

/-- chrono `Datelike::quarter`, in `1..=4`. -/
def DateTimeM.quarterOf (dt : DateTimeM) : Nat := (dt.monthOf + 2) / 3

/-- chrono `Datelike::ordinal` (day of year, `1..=366`). -/
def DateTimeM.ordinalOf (dt : DateTimeM) : Int :=
  dt.days - daysFromCivil dt.yearOf 1 1 + 1

/-- chrono `Weekday::num_days_from_monday` (1970-01-01 was a Thursday, three
days after a Monday). -/
def DateTimeM.numDaysFromMonday (dt : DateTimeM) : Int := (dt.days + 3) % 7

/-- chrono `Weekday::num_days_from_sunday`. -/
def DateTimeM.numDaysFromSunday (dt : DateTimeM) : Int := (dt.days + 4) % 7

/-- Gregorian leap-year test. -/
def isLeapYear (y : Int) : Bool := (y % 4 = 0 && y % 100 ≠ 0) || y % 400 = 0

/-- Number of ISO weeks in ISO year `y`: 53 when Jan 1 is a Thursday, or Jan
1 of a leap year is a Wednesday; else 52. -/
def isoWeeksInYear (y : Int) : Int :=
  let jan1wd := (daysFromCivil y 1 1 + 3) % 7
  if jan1wd = 3 ∨ (isLeapYear y ∧ jan1wd = 2) then 53 else 52

/-- chrono `Datelike::iso_week`: the ISO-8601 (week, week-numbering-year)
pair; week 1 is the week containing the year's first Thursday. -/
def DateTimeM.isoWeekAndYear (dt : DateTimeM) : Int × Int :=
  let y := dt.yearOf
  let ord := dt.ordinalOf
  let wd := dt.numDaysFromMonday + 1
  let w := (ord - wd + 10) / 7
  if w < 1 then (isoWeeksInYear (y - 1), y - 1)
  else if w > isoWeeksInYear y then (1, y + 1)
  else (w, y)

/-- chrono `Timelike::nanosecond` (nanosecond within the second). -/
def DateTimeM.nanosecondOf (dt : DateTimeM) : Nat := dt.nanoOfDay % 1000000000

/-- `get_date_time_part_extract_fn` (temporal.rs lines 90-111). -/
def getDateTimePartExtractFn (part : DatePart) : DateTimeM → Int :=
  match part with
  | .Quarter => fun dt => (dt.quarterOf : Int)
  | .Year => fun dt => dt.yearOf
  | .YearISO => fun dt => dt.isoWeekAndYear.2
  | .Month => fun dt => (dt.monthOf : Int)
  | .Week | .WeekISO => fun dt => dt.isoWeekAndYear.1
  | .Day => fun dt => (dt.dayOf : Int)
  | .DayOfWeekSunday0 => fun dt => dt.numDaysFromSunday
  | .DayOfWeekMonday0 => fun dt => dt.numDaysFromMonday
  | .DayOfYear => fun dt => dt.ordinalOf
  | .Hour => fun dt => (dt.nanoOfDay / 3600000000000 : Nat)
  | .Minute => fun dt => ((dt.nanoOfDay / 60000000000) % 60 : Nat)
  | .Second => fun dt => ((dt.nanoOfDay / 1000000000) % 60 : Nat)
  | .Millisecond => fun dt => (dt.nanosecondOf / 1000000 : Nat)
  | .Microsecond => fun dt => (dt.nanosecondOf / 1000 : Nat)
  | .Nanosecond => fun dt => (dt.nanosecondOf : Nat)

/-! ### Per-encoding `ExtractDatePartExt` implementations -/

/-- The `i32` value of an `IntervalDayTimeType` element: independent day and
millisecond fields. -/
structure IntervalDayTime where
  days : Int
  milliseconds : Int
  deriving Repr, DecidableEq

/-- The value of an `IntervalMonthDayNanoType` element: independent month,
day (`i32`) and nanosecond (`i64`) fields. -/
structure IntervalMonthDayNano where
  months : Int
  days : Int
  nanoseconds : Int
  deriving Repr, DecidableEq

/-- The `range_check` of the `Time32SecondType` impl (temporal.rs lines
216-219): the value must lie in `[0, SECONDS_IN_DAY)`. -/
def time32SRangeCheck (s : Int) : Bool := 0 ≤ s && s < 86400

/-- `ExtractDatePartExt for PrimitiveArray<Time32SecondType>`
(temporal.rs lines 214-231). -/
def time32SecondDatePart (xs : List (Option Int)) (part : DatePart) :
    Except ArrowError (List (Option Int)) :=
  match part with
  | .Hour => .ok (unaryOpt (fun s =>
      if time32SRangeCheck s then some (s.tdiv 3600) else none) xs)
  | .Minute => .ok (unaryOpt (fun s =>
      if time32SRangeCheck s then some ((s.tdiv 60).tmod 60) else none) xs)
  | .Second => .ok (unaryOpt (fun s =>
      if time32SRangeCheck s then some (s.tmod 60) else none) xs)
  | .Millisecond | .Microsecond | .Nanosecond => .ok (unaryOpt (fun s =>
      if time32SRangeCheck s then some 0 else none) xs)
  | _ => .error (notSupportedError part "Time32(Second)")

/-- Range check of the `Time32MillisecondType` impl: `[0, ms per day)`. -/
def time32MsRangeCheck (ms : Int) : Bool := 0 ≤ ms && ms < 86400000

/-- `ExtractDatePartExt for PrimitiveArray<Time32MillisecondType>`
(temporal.rs lines 233-262). -/
def time32MillisecondDatePart (xs : List (Option Int)) (part : DatePart) :
    Except ArrowError (List (Option Int)) :=
  match part with
  | .Hour => .ok (unaryOpt (fun ms =>
      if time32MsRangeCheck ms then some ((ms.tdiv 3600).tdiv 1000) else none) xs)
  | .Minute => .ok (unaryOpt (fun ms =>
      if time32MsRangeCheck ms then some (((ms.tdiv 60).tdiv 1000).tmod 60)
      else none) xs)
  | .Second => .ok (unaryOpt (fun ms =>
      if time32MsRangeCheck ms then some ((ms.tdiv 1000).tmod 60) else none) xs)
  | .Millisecond => .ok (unaryOpt (fun ms =>
      if time32MsRangeCheck ms then some (ms.tmod 1000) else none) xs)
  | .Microsecond => .ok (unaryOpt (fun ms =>
      if time32MsRangeCheck ms then some (ms.tmod 1000 * 1000) else none) xs)
  | .Nanosecond => .ok (unaryOpt (fun ms =>
      if time32MsRangeCheck ms then some (ms.tmod 1000 * 1000000) else none) xs)
  | _ => .error (notSupportedError part "Time32(Millisecond)")

/-- Range check of the `Time64MicrosecondType` impl: `[0, µs per day)`. -/
def time64UsRangeCheck (us : Int) : Bool := 0 ≤ us && us < 86400000000

/-- `ExtractDatePartExt for PrimitiveArray<Time64MicrosecondType>`
(temporal.rs lines 264-291); `as i32` narrowing cannot overflow for in-range
values. -/
def time64MicrosecondDatePart (xs : List (Option Int)) (part : DatePart) :
    Except ArrowError (List (Option Int)) :=
  match part with
  | .Hour => .ok (unaryOpt (fun us =>
      if time64UsRangeCheck us then some ((us.tdiv 3600).tdiv 1000000)
      else none) xs)
  | .Minute => .ok (unaryOpt (fun us =>
      if time64UsRangeCheck us then some (((us.tdiv 60).tdiv 1000000).tmod 60)
      else none) xs)
  | .Second => .ok (unaryOpt (fun us =>
      if time64UsRangeCheck us then some ((us.tdiv 1000000).tmod 60)
      else none) xs)
  | .Millisecond => .ok (unaryOpt (fun us =>
      if time64UsRangeCheck us then some ((us.tmod 1000000).tdiv 1000)
      else none) xs)
  | .Microsecond => .ok (unaryOpt (fun us =>
      if time64UsRangeCheck us then some (us.tmod 1000000) else none) xs)
  | .Nanosecond => .ok (unaryOpt (fun us =>
      if time64UsRangeCheck us then some (us.tmod 1000000 * 1000)
      else none) xs)
  | _ => .error (notSupportedError part "Time64(Microsecond)")

/-- Range check of the `Time64NanosecondType` impl: `[0, ns per day)`. -/
def time64NsRangeCheck (ns : Int) : Bool := 0 ≤ ns && ns < 86400000000000

/-- `ExtractDatePartExt for PrimitiveArray<Time64NanosecondType>`
(temporal.rs lines 293-322). -/
def time64NanosecondDatePart (xs : List (Option Int)) (part : DatePart) :
    Except ArrowError (List (Option Int)) :=
  match part with
  | .Hour => .ok (unaryOpt (fun ns =>
      if time64NsRangeCheck ns then some ((ns.tdiv 3600).tdiv 1000000000)
      else none) xs)
  | .Minute => .ok (unaryOpt (fun ns =>
      if time64NsRangeCheck ns then
        some (((ns.tdiv 60).tdiv 1000000000).tmod 60)
      else none) xs)
  | .Second => .ok (unaryOpt (fun ns =>
      if time64NsRangeCheck ns then some ((ns.tdiv 1000000000).tmod 60)
      else none) xs)
  | .Millisecond => .ok (unaryOpt (fun ns =>
      if time64NsRangeCheck ns then some ((ns.tmod 1000000000).tdiv 1000000)
      else none) xs)
  | .Microsecond => .ok (unaryOpt (fun ns =>
      if time64NsRangeCheck ns then some ((ns.tmod 1000000000).tdiv 1000)
      else none) xs)
  | .Nanosecond => .ok (unaryOpt (fun ns =>
      if time64NsRangeCheck ns then some (ns.tmod 1000000000) else none) xs)
  | _ => .error (notSupportedError part "Time64(Nanosecond)")

/-- `ExtractDatePartExt for PrimitiveArray<Date32Type>`
(temporal.rs lines 324-343): sub-day parts are a constant-zero array keeping
the null buffer; calendar parts go through the civil calendar. -/
def date32DatePart (xs : List (Option Int)) (part : DatePart) :
    Except ArrowError (List (Option Int)) :=
  match part with
  | .Hour | .Minute | .Second | .Millisecond | .Microsecond | .Nanosecond =>
    .ok (xs.map (Option.map fun _ => 0))
  | _ =>
    .ok (unaryOpt (fun d =>
      (date32ToDatetime d).map (getDateTimePartExtractFn part)) xs)

/-- `ExtractDatePartExt for PrimitiveArray<Date64Type>`
(temporal.rs lines 345-350). -/
def date64DatePart (xs : List (Option Int)) (part : DatePart) :
    Except ArrowError (List (Option Int)) :=
  .ok (unaryOpt (fun d =>
    (date64ToDatetime d).map (getDateTimePartExtractFn part)) xs)

/-- `ExtractDatePartExt for PrimitiveArray<TimestampSecondType>`
(temporal.rs lines 352-371) for a timezone-less array (`get_tz` returns
`None` for `Timestamp(Second, None)`): sub-second parts are constant zero,
everything else goes through the UTC civil time. -/
def timestampSecondDatePart (xs : List (Option Int)) (part : DatePart) :
    Except ArrowError (List (Option Int)) :=
  match part with
  | .Millisecond | .Microsecond | .Nanosecond =>
    .ok (xs.map (Option.map fun _ => 0))
  | _ =>
    .ok (unaryOpt (fun d =>
      (timestampSToDatetime d).map (getDateTimePartExtractFn part)) xs)

/-- `ExtractDatePartExt for PrimitiveArray<IntervalYearMonthType>`
(temporal.rs lines 424-448). -/
def intervalYearMonthDatePart (xs : List (Option Int)) (part : DatePart) :
    Except ArrowError (List (Option Int)) :=
  match part with
  | .Year => .ok (unaryOpt (fun d => some (d.tdiv 12)) xs)
  | .Month => .ok (unaryOpt (fun d => some (d.tmod 12)) xs)
  | _ => .error (notSupportedError part "Interval(YearMonth)")

/-- The per-part closures of the `IntervalDayTimeType` impl
(temporal.rs lines 453-464), merged into one element function.  Day-derived
and millisecond-derived parts never mix the two fields; `Microsecond` and
`Nanosecond` use `i32` checked multiplication. -/
def intervalDayTimeElem (part : DatePart) (d : IntervalDayTime) : Option Int :=
  match part with
  | .Week => some (d.days.tdiv 7)
  | .Day => some d.days
  | .Hour => some (d.milliseconds.tdiv 3600000)
  | .Minute => some ((d.milliseconds.tdiv 60000).tmod 60)
  | .Second => some ((d.milliseconds.tdiv 1000).tmod 60)
  | .Millisecond => some (d.milliseconds.tmod 60000)
  | .Microsecond => mulChecked 32 (d.milliseconds.tmod 60000) 1000
  | .Nanosecond => mulChecked 32 (d.milliseconds.tmod 60000) 1000000
  | _ => none

/-- `ExtractDatePartExt for PrimitiveArray<IntervalDayTimeType>`
(temporal.rs lines 450-478). -/
def intervalDayTimeDatePart (xs : List (Option IntervalDayTime))
    (part : DatePart) : Except ArrowError (List (Option Int)) :=
  match part with
  | .Week | .Day | .Hour | .Minute | .Second
  | .Millisecond | .Microsecond | .Nanosecond =>
    .ok (unaryOpt (intervalDayTimeElem part) xs)
  | _ => .error (notSupportedError part "Interval(DayTime)")

/-- The per-part closures of the `IntervalMonthDayNanoType` impl
(temporal.rs lines 483-507): the `i64` nanosecond computations end in a
`try_into` narrowing to `i32`. -/
def intervalMonthDayNanoElem (part : DatePart) (d : IntervalMonthDayNano) :
    Option Int :=
  match part with
  | .Year => some (d.months.tdiv 12)
  | .Month => some (d.months.tmod 12)
  | .Week => some (d.days.tdiv 7)
  | .Day => some d.days
  | .Hour => narrowTo 32 (d.nanoseconds.tdiv 3600000000000)
  | .Minute => narrowTo 32 ((d.nanoseconds.tdiv 60000000000).tmod 60)
  | .Second => narrowTo 32 ((d.nanoseconds.tdiv 1000000000).tmod 60)
  | .Millisecond => narrowTo 32 ((d.nanoseconds.tmod 60000000000).tdiv 1000000)
  | .Microsecond => narrowTo 32 ((d.nanoseconds.tmod 60000000000).tdiv 1000)
  | .Nanosecond => narrowTo 32 (d.nanoseconds.tmod 60000000000)
  | _ => none

/-- `ExtractDatePartExt for PrimitiveArray<IntervalMonthDayNanoType>`
(temporal.rs lines 480-520). -/
def intervalMonthDayNanoDatePart (xs : List (Option IntervalMonthDayNano))
    (part : DatePart) : Except ArrowError (List (Option Int)) :=
  match part with
  | .Year | .Month | .Week | .Day | .Hour | .Minute | .Second
  | .Millisecond | .Microsecond | .Nanosecond =>
    .ok (unaryOpt (intervalMonthDayNanoElem part) xs)
  | _ => .error (notSupportedError part "Interval(MonthDayNano)")

/-- The per-part closures of the `DurationSecondType` impl
(temporal.rs lines 525-538): pure `i64` unit conversions ending in a
`try_into` narrowing to `i32`; the finer parts use checked
multiplication. -/
def durationSecondElem (part : DatePart) (d : Int) : Option Int :=
  match part with
  | .Week => narrowTo 32 (d.tdiv 604800)
  | .Day => narrowTo 32 (d.tdiv 86400)
  | .Hour => narrowTo 32 (d.tdiv 3600)
  | .Minute => narrowTo 32 (d.tdiv 60)
  | .Second => narrowTo 32 d
  | .Millisecond => (mulChecked 64 d 1000).bind (narrowTo 32)
  | .Microsecond => (mulChecked 64 d 1000000).bind (narrowTo 32)
  | .Nanosecond => (mulChecked 64 d 1000000000).bind (narrowTo 32)
  | _ => none

/-- `ExtractDatePartExt for PrimitiveArray<DurationSecondType>`
(temporal.rs lines 522-552). -/
def durationSecondDatePart (xs : List (Option Int)) (part : DatePart) :
    Except ArrowError (List (Option Int)) :=
  match part with
  | .Week | .Day | .Hour | .Minute | .Second
  | .Millisecond | .Microsecond | .Nanosecond =>
    .ok (unaryOpt (durationSecondElem part) xs)
  | _ => .error (notSupportedError part "Duration(Second)")

/-- The per-part closures of the `DurationMillisecondType` impl
(temporal.rs lines 557-569). -/
def durationMillisecondElem (part : DatePart) (d : Int) : Option Int :=
  match part with
  | .Week => narrowTo 32 (d.tdiv 604800000)
  | .Day => narrowTo 32 (d.tdiv 86400000)
  | .Hour => narrowTo 32 (d.tdiv 3600000)
  | .Minute => narrowTo 32 (d.tdiv 60000)
  | .Second => narrowTo 32 (d.tdiv 1000)
  | .Millisecond => narrowTo 32 d
  | .Microsecond => (mulChecked 64 d 1000).bind (narrowTo 32)
  | .Nanosecond => (mulChecked 64 d 1000000).bind (narrowTo 32)
  | _ => none

/-- `ExtractDatePartExt for PrimitiveArray<DurationMillisecondType>`
(temporal.rs lines 554-584). -/
def durationMillisecondDatePart (xs : List (Option Int)) (part : DatePart) :
    Except ArrowError (List (Option Int)) :=
  match part with
  | .Week | .Day | .Hour | .Minute | .Second
  | .Millisecond | .Microsecond | .Nanosecond =>
    .ok (unaryOpt (durationMillisecondElem part) xs)
  | _ => .error (notSupportedError part "Duration(Millisecond)")

/-- The per-part closures of the `DurationMicrosecondType` impl
(temporal.rs lines 589-601). -/
def durationMicrosecondElem (part : DatePart) (d : Int) : Option Int :=
  match part with
  | .Week => narrowTo 32 (d.tdiv 604800000000)
  | .Day => narrowTo 32 (d.tdiv 86400000000)
  | .Hour => narrowTo 32 (d.tdiv 3600000000)
  | .Minute => narrowTo 32 (d.tdiv 60000000)
  | .Second => narrowTo 32 (d.tdiv 1000000)
  | .Millisecond => narrowTo 32 (d.tdiv 1000)
  | .Microsecond => narrowTo 32 d
  | .Nanosecond => (mulChecked 64 d 1000).bind (narrowTo 32)
  | _ => none

/-- `ExtractDatePartExt for PrimitiveArray<DurationMicrosecondType>`
(temporal.rs lines 586-616). -/
def durationMicrosecondDatePart (xs : List (Option Int)) (part : DatePart) :
    Except ArrowError (List (Option Int)) :=
  match part with
  | .Week | .Day | .Hour | .Minute | .Second
  | .Millisecond | .Microsecond | .Nanosecond =>
    .ok (unaryOpt (durationMicrosecondElem part) xs)
  | _ => .error (notSupportedError part "Duration(Microsecond)")

/-- The per-part closures of the `DurationNanosecondType` impl
(temporal.rs lines 621-634). -/
def durationNanosecondElem (part : DatePart) (d : Int) : Option Int :=
  match part with
  | .Week => narrowTo 32 (d.tdiv 604800000000000)
  | .Day => narrowTo 32 (d.tdiv 86400000000000)
  | .Hour => narrowTo 32 (d.tdiv 3600000000000)
  | .Minute => narrowTo 32 (d.tdiv 60000000000)
  | .Second => narrowTo 32 (d.tdiv 1000000000)
  | .Millisecond => narrowTo 32 (d.tdiv 1000000)
  | .Microsecond => narrowTo 32 (d.tdiv 1000)
  | .Nanosecond => narrowTo 32 d
  | _ => none

/-- `ExtractDatePartExt for PrimitiveArray<DurationNanosecondType>`
(temporal.rs lines 618-648). -/
def durationNanosecondDatePart (xs : List (Option Int)) (part : DatePart) :
    Except ArrowError (List (Option Int)) :=
  match part with
  | .Week | .Day | .Hour | .Minute | .Second
  | .Millisecond | .Microsecond | .Nanosecond =>
    .ok (unaryOpt (durationNanosecondElem part) xs)
  | _ => .error (notSupportedError part "Duration(Nanosecond)")

/-! ### Kernel dispatch (`date_part`, temporal.rs lines 146-197) -/

/-- The temporal encodings handled by `date_part` (timezone-less timestamps;
the dictionary wrapper carries a key array referencing a values array). -/
inductive TemporalArray where
  | time32Second (xs : List (Option Int))
  | time32Millisecond (xs : List (Option Int))
  | time64Microsecond (xs : List (Option Int))
  | time64Nanosecond (xs : List (Option Int))
  | date32 (xs : List (Option Int))
  | date64 (xs : List (Option Int))
  | timestampSecond (xs : List (Option Int))
  | intervalYearMonth (xs : List (Option Int))
  | intervalDayTime (xs : List (Option IntervalDayTime))
  | intervalMonthDayNano (xs : List (Option IntervalMonthDayNano))
  | durationSecond (xs : List (Option Int))
  | durationMillisecond (xs : List (Option Int))
  | durationMicrosecond (xs : List (Option Int))
  | durationNanosecond (xs : List (Option Int))
  | dictionary (keys : List (Option Nat)) (values : TemporalArray)

/-- The result of `date_part`: an `Int32Array`, or (for dictionary input) a
dictionary sharing the input's key array over an extracted values array. -/
inductive DatePartOutput where
  | int32 (xs : List (Option Int))
  | dictionary (keys : List (Option Nat)) (values : DatePartOutput)
  deriving Repr, DecidableEq

/-- `date_part` (temporal.rs lines 146-197): dispatch on the concrete
encoding; a dictionary array is recursed into its values array and the
result rewrapped with the original (unchanged) key array. -/
def datePart : TemporalArray → DatePart → Except ArrowError DatePartOutput
  | .time32Second xs, part => (time32SecondDatePart xs part).map .int32
  | .time32Millisecond xs, part => (time32MillisecondDatePart xs part).map .int32
  | .time64Microsecond xs, part => (time64MicrosecondDatePart xs part).map .int32
  | .time64Nanosecond xs, part => (time64NanosecondDatePart xs part).map .int32
  | .date32 xs, part => (date32DatePart xs part).map .int32
  | .date64 xs, part => (date64DatePart xs part).map .int32
  | .timestampSecond xs, part => (timestampSecondDatePart xs part).map .int32
  | .intervalYearMonth xs, part => (intervalYearMonthDatePart xs part).map .int32
  | .intervalDayTime xs, part => (intervalDayTimeDatePart xs part).map .int32
  | .intervalMonthDayNano xs, part =>
    (intervalMonthDayNanoDatePart xs part).map .int32
  | .durationSecond xs, part => (durationSecondDatePart xs part).map .int32
  | .durationMillisecond xs, part =>
    (durationMillisecondDatePart xs part).map .int32
  | .durationMicrosecond xs, part =>
    (durationMicrosecondDatePart xs part).map .int32
  | .durationNanosecond xs, part =>
    (durationNanosecondDatePart xs part).map .int32
  | .dictionary keys vs, part => do
    let values ← datePart vs part
    .ok (.dictionary keys values)

/-! ## Spec-side comparison definitions -/

/-- The rounding rule exactly as the spec words it (for the refinement claim
C1): `d, r = divmod(x, div)` with truncating division; result `d + 1` when
`x ≥ 0` and `r ≥ div / 2`, `d - 1` when `x < 0` and `r ≤ -(div / 2)`, else
`d`.  The half comparisons are expressed exactly (`2 * r` against `div`). -/
def roundHalfAwayFromZeroSpec (x div : Int) : Int :=
  let d := x.tdiv div
  let r := x.tmod div
  if 0 ≤ x ∧ 2 * r ≥ div then d + 1
  else if x < 0 ∧ 2 * r ≤ -div then d - 1
  else d

/-! ## Helper lemmas -/

theorem inRangeInt_def (w : Nat) (z : Int) :
    inRangeInt w z ↔ -(2 ^ (w - 1)) ≤ z ∧ z < 2 ^ (w - 1) := Iff.rfl

theorem neg_tmod' (a b : Int) : (-a).tmod b = -(a.tmod b) := by
  rw [Int.tmod_def, Int.tmod_def, Int.neg_tdiv]; ring

theorem natAbs_le_of_inRangeInt {w : Nat} {z : Int} (h : inRangeInt w z) :
    z.natAbs ≤ 2 ^ (w - 1) := by
  obtain ⟨h1, h2⟩ := h
  have : ((2 : Int) ^ (w - 1)) = ((2 ^ (w - 1) : Nat) : Int) := by push_cast; ring
  omega

theorem inRangeInt_of_natAbs_lt {w : Nat} {z : Int}
    (h : z.natAbs < 2 ^ (w - 1)) : inRangeInt w z := by
  have : ((2 : Int) ^ (w - 1)) = ((2 ^ (w - 1) : Nat) : Int) := by push_cast; ring
  unfold inRangeInt
  omega

theorem wrapInt_eq_self {w : Nat} (hw : 0 < w) {z : Int}
    (h : inRangeInt w z) : wrapInt w z = z := by
  obtain ⟨h1, h2⟩ := h
  have hpow : (2 : Int) ^ w = 2 ^ (w - 1) * 2 := by
    rw [← pow_succ]; congr 1; omega
  unfold wrapInt
  rw [Int.emod_eq_of_lt (by omega) (by omega)]
  omega

theorem tmod_natAbs_lt (a : Int) {b : Int} (hb : 0 < b) :
    (a.tmod b).natAbs < b.natAbs := by
  rcases le_or_lt 0 a with ha | ha
  · have h1 := Int.tmod_nonneg b ha
    have h2 := Int.tmod_lt_of_pos a hb
    omega
  · have h0 := neg_tmod' (-a) b
    rw [neg_neg] at h0
    have h1 := Int.tmod_nonneg b (by omega : (0 : Int) ≤ -a)
    have h2 := Int.tmod_lt_of_pos (-a) hb
    omega

/-- Element lookup through `unary_opt`: position `i` of the output array is
the element closure applied to the (non-null) input element there. -/
theorem unaryOpt_getElem {α β : Type} (f : α → Option β)
    {xs : List (Option α)} {i : Nat} {a : α}
    (h : xs[i]? = some (some a)) : (unaryOpt f xs)[i]? = some (f a) := by
  unfold unaryOpt
  rw [List.getElem?_map, h]
  rfl

/-- The wrapping round-half-away-from-zero block shared by
`convert_to_smaller_scale_decimal` (width 128) and
`parse_string_to_decimal_native` (width 256) computes exactly the spec's
rounding formula whenever the input and the power divisor are
representable. -/
theorem wrapRound_eq {w : Nat} (hw : 2 ≤ w) {x : Int} {delta : Nat}
    (hx : inRangeInt w x) (h1 : 1 ≤ delta)
    (hdr : inRangeInt w ((10 : Int) ^ delta)) :
    (if x ≥ 0 then
      if modWrapping w x ((10 : Int) ^ delta) ≥
          divWrapping w ((10 : Int) ^ delta) 2 then
        addWrapping w (divWrapping w x ((10 : Int) ^ delta)) 1
      else divWrapping w x ((10 : Int) ^ delta)
    else
      if modWrapping w x ((10 : Int) ^ delta) ≤
          negWrapping w (divWrapping w ((10 : Int) ^ delta) 2) then
        subWrapping w (divWrapping w x ((10 : Int) ^ delta)) 1
      else divWrapping w x ((10 : Int) ^ delta)) =
    roundHalfAwayFromZeroSpec x ((10 : Int) ^ delta) := by
  obtain ⟨e, rfl⟩ : ∃ e, delta = e + 1 := ⟨delta - 1, by omega⟩
  have hxa := natAbs_le_of_inRangeInt hx
  have hA2 : 2 ≤ 2 ^ (w - 1) := by
    calc (2 : Nat) = 2 ^ 1 := by norm_num
    _ ≤ 2 ^ (w - 1) := Nat.pow_le_pow_right (by norm_num) (by omega)
  set div := (10 : Int) ^ (e + 1) with hdivdef
  have hdivpos : (0 : Int) < div := pow_pos (by norm_num) _
  have hdiv10 : (10 : Int) ≤ div := by
    calc (10 : Int) = 10 ^ 1 := (pow_one 10).symm
    _ ≤ 10 ^ (e + 1) := pow_le_pow_right₀ (by norm_num) (by omega)
  have hdiv2 : div = 2 * (5 * 10 ^ e) := by
    rw [hdivdef, pow_succ]; ring
  have hhalf : div.tdiv 2 = 5 * 10 ^ e := by
    rw [hdiv2, mul_comm]
    exact Int.mul_tdiv_cancel _ (by norm_num)
  have hdivna := natAbs_le_of_inRangeInt hdr
  have hhalfpos : (0 : Int) < 5 * 10 ^ e := by positivity
  have hhalfna : ((5 * 10 ^ e : Int)).natAbs < div.natAbs := by
    have h5 : (5 * 10 ^ e : Int) < div := by omega
    omega
  have hhalfrange : inRangeInt w (5 * 10 ^ e) :=
    inRangeInt_of_natAbs_lt (by omega)
  have hnegrange : inRangeInt w (-(5 * 10 ^ e)) :=
    inRangeInt_of_natAbs_lt (by omega)
  have hdivna10 : 10 ≤ div.natAbs := by omega
  have hdna : (x.tdiv div).natAbs ≤ 2 ^ (w - 1) / 10 := by
    rw [Int.natAbs_tdiv]
    calc x.natAbs / div.natAbs ≤ x.natAbs / 10 :=
          Nat.div_le_div_left hdivna10 (by norm_num)
    _ ≤ 2 ^ (w - 1) / 10 := Nat.div_le_div_right hxa
  have hdrange : inRangeInt w (x.tdiv div) :=
    inRangeInt_of_natAbs_lt (by omega)
  have hd1range : inRangeInt w (x.tdiv div + 1) :=
    inRangeInt_of_natAbs_lt (by omega)
  have hd2range : inRangeInt w (x.tdiv div - 1) :=
    inRangeInt_of_natAbs_lt (by omega)
  have hrna := tmod_natAbs_lt x hdivpos
  have hrrange : inRangeInt w (x.tmod div) :=
    inRangeInt_of_natAbs_lt (by omega)
  have hwpos : 0 < w := by omega
  simp only [divWrapping, modWrapping, negWrapping, addWrapping, subWrapping,
    wrapInt_eq_self hwpos hdr,
    wrapInt_eq_self hwpos hdrange,
    wrapInt_eq_self hwpos hrrange]
  rw [hhalf,
    wrapInt_eq_self hwpos hhalfrange,
    wrapInt_eq_self hwpos hnegrange]
  simp only [roundHalfAwayFromZeroSpec]
  rcases le_or_lt 0 x with hx0 | hx0
  · rw [if_pos (by exact hx0)]
    by_cases hr : x.tmod div ≥ 5 * 10 ^ e
    · rw [if_pos hr, if_pos ⟨hx0, by omega⟩, wrapInt_eq_self hwpos hd1range]
    · rw [if_neg hr, if_neg (by omega), if_neg (by omega)]
  · rw [if_neg (by omega)]
    by_cases hr : x.tmod div ≤ -(5 * 10 ^ e)
    · rw [if_pos hr, if_neg (by omega), if_pos ⟨hx0, by omega⟩,
        wrapInt_eq_self hwpos hd2range]
    · rw [if_neg hr, if_neg (by omega), if_neg (by omega)]

/-- The source's rounding closure agrees with the spec's
round-half-away-from-zero formula for every `i128` input and every divisor
`10 ^ delta` with `1 ≤ delta ≤ 38` (all it is ever called with: the `i128`
power check bounds the exponent). -/
theorem smallerScaleElem_eq_spec {x : Int} {delta : Nat}
    (hx : inRangeInt 128 x) (h1 : 1 ≤ delta) (h38 : delta ≤ 38) :
    smallerScaleElem ((10 : Int) ^ delta) x =
      some (roundHalfAwayFromZeroSpec x ((10 : Int) ^ delta)) := by
  have hdr : inRangeInt 128 ((10 : Int) ^ delta) := by
    have h1' : (0 : Int) < 10 ^ delta := pow_pos (by norm_num) _
    have h2' : (10 : Int) ^ delta ≤ 10 ^ 38 :=
      pow_le_pow_right₀ (by norm_num) h38
    have h3' : (10 : Int) ^ 38 < 2 ^ 127 := by norm_num
    rw [inRangeInt_def]
    norm_num
    omega
  unfold smallerScaleElem
  exact congrArg some (wrapRound_eq (by norm_num) hx h1 hdr)

/-! ## Claims -/

/-- C1: rescaling to a smaller scale divides by `div = 10 ^ (in_scale -
out_scale)` with round-half-away-from-zero exactly as the spec states it
(truncating divmod; `d + 1` when `x ≥ 0` and `r ≥ div / 2`; `d - 1` when
`x < 0` and `r ≤ -(div / 2)`; else `d`); in particular the value 99999 at
scale 3 rescaled to scale 0 (precisions 5 → 3) yields 100. -/
theorem claim_C1 :
    (∀ (x : Int) (delta : Nat), inRangeInt 128 x → 1 ≤ delta → delta ≤ 38 →
      smallerScaleElem ((10 : Int) ^ delta) x =
        some (roundHalfAwayFromZeroSpec x ((10 : Int) ^ delta))) ∧
    convertToSmallerScaleDecimal [some 99999] 5 3 3 0 true =
      .ok [some 100] := by
  refine ⟨fun x delta hx h1 h38 => smallerScaleElem_eq_spec hx h1 h38, ?_⟩
  rfl

/-- Witness for C1: the universally quantified part applied at the concrete
input `x = 99999`, `delta = 3`. -/
theorem claim_C1_witness :
    smallerScaleElem ((10 : Int) ^ 3) 99999 =
      some (roundHalfAwayFromZeroSpec 99999 ((10 : Int) ^ 3)) :=
  claim_C1.1 99999 3 (by decide) (by decide) (by decide)

/-- C5: `date_part` on a dictionary-encoded array equals extracting from the
dictionary's values array and rewrapping with the original, unchanged key
array. -/
theorem claim_C5 {keys : List (Option Nat)} {vs : TemporalArray}
    {part : DatePart} {out : DatePartOutput}
    (h : datePart vs part = .ok out) :
    datePart (.dictionary keys vs) part = .ok (.dictionary keys out) := by
  simp only [datePart, h]
  rfl

/-- Witness for C5: a dictionary over a `Time32(Second)` values array,
extracting `Hour`. -/
theorem claim_C5_witness :
    datePart (.dictionary [some 0, none] (.time32Second [some 7200])) .Hour =
      .ok (.dictionary [some 0, none] (.int32 [some 2])) :=
  claim_C5 (by rfl)

/-- C10: extracting `Millisecond` from an Interval-DayTime element returns
its milliseconds field modulo 60000 (truncating remainder: millisecond
within the current minute, up to 59999 and negative for negative intervals,
not millisecond within the second), and the days field never affects the
result. -/
theorem claim_C10 :
    (∀ (days ms : Int),
      intervalDayTimeElem .Millisecond ⟨days, ms⟩ = some (ms.tmod 60000)) ∧
    (∀ (days1 days2 ms : Int),
      intervalDayTimeElem .Millisecond ⟨days1, ms⟩ =
        intervalDayTimeElem .Millisecond ⟨days2, ms⟩) ∧
    datePart (.intervalDayTime [some ⟨5, 59999⟩]) .Millisecond =
      .ok (.int32 [some 59999]) ∧
    datePart (.intervalDayTime [some ⟨0, -59999⟩]) .Millisecond =
      .ok (.int32 [some (-59999)]) :=
  ⟨fun _ _ => rfl, fun _ _ _ => rfl, by rfl, by rfl⟩

/-- C3 counterexample: for the Interval-DayTime element `{days 0, ms 10000}`,
requesting `Nanosecond` overflows the `i32` checked multiplication
(`10000 * 1_000_000`), and the element comes out NULL, not `0` as the claim
states. -/
theorem claim_C3_counterexample :
    datePart (.intervalDayTime [some ⟨0, 10000⟩]) .Nanosecond =
      .ok (.int32 [none]) ∧
    ¬ datePart (.intervalDayTime [some ⟨0, 10000⟩]) .Nanosecond =
      .ok (.int32 [some 0]) := by
  have h1 : datePart (.intervalDayTime [some ⟨0, 10000⟩]) .Nanosecond =
      .ok (.int32 [none]) := by rfl
  refine ⟨h1, fun h => ?_⟩
  rw [h1] at h
  simp at h

/-- C3 (amended): overflow in the finer-part conversions yields NULL — not
an error and not 0.  On Interval-DayTime, `Microsecond` multiplies the
minute remainder `milliseconds % 60000` by 1000, which always fits `i32`,
so it always returns the remainder times 1000 and can never null on
overflow; `Nanosecond` multiplies the remainder by 1000000, and when that
checked multiplication leaves the `i32` range the `date_part` call still
succeeds with NULL at that element.  Likewise for every Duration finer-part
path — Duration-seconds to Millisecond/Microsecond/Nanosecond,
Duration-milliseconds to Microsecond/Nanosecond, Duration-microseconds to
Nanosecond: when the checked multiplication or the narrowing of its result
to `i32` fails, the call succeeds with NULL at that element. -/
theorem claim_C3_amended :
    (∀ (days ms : Int),
      intervalDayTimeElem .Microsecond ⟨days, ms⟩ =
        some (ms.tmod 60000 * 1000)) ∧
    (∀ (xs : List (Option IntervalDayTime)) (i : Nat) (days ms : Int),
      xs[i]? = some (some ⟨days, ms⟩) →
      ¬ inRangeInt 32 (ms.tmod 60000 * 1000000) →
      ∃ out, datePart (.intervalDayTime xs) .Nanosecond =
          .ok (.int32 out) ∧ out[i]? = some none) ∧
    (∀ (xs : List (Option Int)) (i : Nat) (d : Int),
      xs[i]? = some (some d) → ¬ inRangeInt 32 (d * 1000) →
      ∃ out, datePart (.durationSecond xs) .Millisecond =
          .ok (.int32 out) ∧ out[i]? = some none) ∧
    (∀ (xs : List (Option Int)) (i : Nat) (d : Int),
      xs[i]? = some (some d) → ¬ inRangeInt 32 (d * 1000000) →
      ∃ out, datePart (.durationSecond xs) .Microsecond =
          .ok (.int32 out) ∧ out[i]? = some none) ∧
    (∀ (xs : List (Option Int)) (i : Nat) (d : Int),
      xs[i]? = some (some d) → ¬ inRangeInt 32 (d * 1000000000) →
      ∃ out, datePart (.durationSecond xs) .Nanosecond =
          .ok (.int32 out) ∧ out[i]? = some none) ∧
    (∀ (xs : List (Option Int)) (i : Nat) (d : Int),
      xs[i]? = some (some d) → ¬ inRangeInt 32 (d * 1000) →
      ∃ out, datePart (.durationMillisecond xs) .Microsecond =
          .ok (.int32 out) ∧ out[i]? = some none) ∧
    (∀ (xs : List (Option Int)) (i : Nat) (d : Int),
      xs[i]? = some (some d) → ¬ inRangeInt 32 (d * 1000000) →
      ∃ out, datePart (.durationMillisecond xs) .Nanosecond =
          .ok (.int32 out) ∧ out[i]? = some none) ∧
    (∀ (xs : List (Option Int)) (i : Nat) (d : Int),
      xs[i]? = some (some d) → ¬ inRangeInt 32 (d * 1000) →
      ∃ out, datePart (.durationMicrosecond xs) .Nanosecond =
          .ok (.int32 out) ∧ out[i]? = some none) := by
  have hdur : ∀ (k d : Int), ¬ inRangeInt 32 (d * k) →
      (mulChecked 64 d k).bind (narrowTo 32) = none := by
    intro k d h
    unfold mulChecked
    by_cases h64 : inRangeInt 64 (d * k)
    · rw [if_pos h64, Option.some_bind]
      unfold narrowTo
      rw [if_neg h]
    · rw [if_neg h64]
      rfl
  refine ⟨?_, ?_, ?_, ?_, ?_, ?_, ?_, ?_⟩
  · intro days ms
    have hr := tmod_natAbs_lt ms (show (0 : Int) < 60000 by norm_num)
    have hrange : inRangeInt 32 (ms.tmod 60000 * 1000) := by
      apply inRangeInt_of_natAbs_lt
      rw [Int.natAbs_mul]
      have h2 : (2 : Nat) ^ (32 - 1) = 2147483648 := by norm_num
      have h1000 : ((1000 : Int)).natAbs = 1000 := rfl
      rw [h2, h1000]
      omega
    simp only [intervalDayTimeElem, mulChecked, if_pos hrange]
  · intro xs i days ms hx hov
    refine ⟨unaryOpt (intervalDayTimeElem .Nanosecond) xs, by rfl, ?_⟩
    rw [unaryOpt_getElem _ hx]
    have hnone : intervalDayTimeElem .Nanosecond ⟨days, ms⟩ = none := by
      simp only [intervalDayTimeElem, mulChecked, if_neg hov]
    rw [hnone]
  · intro xs i d hx hov
    refine ⟨unaryOpt (durationSecondElem .Millisecond) xs, by rfl, ?_⟩
    rw [unaryOpt_getElem _ hx]
    have hnone : durationSecondElem .Millisecond d = none := hdur 1000 d hov
    rw [hnone]
  · intro xs i d hx hov
    refine ⟨unaryOpt (durationSecondElem .Microsecond) xs, by rfl, ?_⟩
    rw [unaryOpt_getElem _ hx]
    have hnone : durationSecondElem .Microsecond d = none := hdur 1000000 d hov
    rw [hnone]
  · intro xs i d hx hov
    refine ⟨unaryOpt (durationSecondElem .Nanosecond) xs, by rfl, ?_⟩
    rw [unaryOpt_getElem _ hx]
    have hnone : durationSecondElem .Nanosecond d = none :=
      hdur 1000000000 d hov
    rw [hnone]
  · intro xs i d hx hov
    refine ⟨unaryOpt (durationMillisecondElem .Microsecond) xs, by rfl, ?_⟩
    rw [unaryOpt_getElem _ hx]
    have hnone : durationMillisecondElem .Microsecond d = none :=
      hdur 1000 d hov
    rw [hnone]
  · intro xs i d hx hov
    refine ⟨unaryOpt (durationMillisecondElem .Nanosecond) xs, by rfl, ?_⟩
    rw [unaryOpt_getElem _ hx]
    have hnone : durationMillisecondElem .Nanosecond d = none :=
      hdur 1000000 d hov
    rw [hnone]
  · intro xs i d hx hov
    refine ⟨unaryOpt (durationMicrosecondElem .Nanosecond) xs, by rfl, ?_⟩
    rw [unaryOpt_getElem _ hx]
    have hnone : durationMicrosecondElem .Nanosecond d = none := hdur 1000 d hov
    rw [hnone]

/-- Witness for the amended C3: each satisfiable overflow path exercised at
a concrete overflowing input (and the never-overflowing Interval-DayTime
Microsecond closure at the largest remainder). -/
theorem claim_C3_amended_witness :
    intervalDayTimeElem .Microsecond ⟨0, 59999⟩ = some 59999000 ∧
    (∃ out, datePart (.intervalDayTime [some ⟨0, 10000⟩]) .Nanosecond =
        .ok (.int32 out) ∧ out[0]? = some none) ∧
    (∃ out, datePart (.durationSecond [some 3000000]) .Millisecond =
        .ok (.int32 out) ∧ out[0]? = some none) ∧
    (∃ out, datePart (.durationSecond [some 3000]) .Microsecond =
        .ok (.int32 out) ∧ out[0]? = some none) ∧
    (∃ out, datePart (.durationSecond [some 3]) .Nanosecond =
        .ok (.int32 out) ∧ out[0]? = some none) ∧
    (∃ out, datePart (.durationMillisecond [some 3000000]) .Microsecond =
        .ok (.int32 out) ∧ out[0]? = some none) ∧
    (∃ out, datePart (.durationMillisecond [some 3000]) .Nanosecond =
        .ok (.int32 out) ∧ out[0]? = some none) ∧
    (∃ out, datePart (.durationMicrosecond [some 3000000]) .Nanosecond =
        .ok (.int32 out) ∧ out[0]? = some none) :=
  ⟨(claim_C3_amended.1 0 59999).trans (by decide),
   claim_C3_amended.2.1 [some ⟨0, 10000⟩] 0 0 10000 (by rfl) (by decide),
   claim_C3_amended.2.2.1 [some 3000000] 0 3000000 (by rfl) (by decide),
   claim_C3_amended.2.2.2.1 [some 3000] 0 3000 (by rfl) (by decide),
   claim_C3_amended.2.2.2.2.1 [some 3] 0 3 (by rfl) (by decide),
   claim_C3_amended.2.2.2.2.2.1 [some 3000000] 0 3000000 (by rfl) (by decide),
   claim_C3_amended.2.2.2.2.2.2.1 [some 3000] 0 3000 (by rfl) (by decide),
   claim_C3_amended.2.2.2.2.2.2.2 [some 3000000] 0 3000000 (by rfl)
     (by decide)⟩

/-- C4: on a Time32-seconds array, for every legal part, a non-null element
outside `[0, 86400)` yields null at its position, and an in-range element
yields the corresponding time component. -/
theorem claim_C4 (xs : List (Option Int)) (part : DatePart)
    (hpart : part = .Hour ∨ part = .Minute ∨ part = .Second ∨
      part = .Millisecond ∨ part = .Microsecond ∨ part = .Nanosecond)
    (i : Nat) (s : Int) (hx : xs[i]? = some (some s)) :
    ∃ out, datePart (.time32Second xs) part = .ok (.int32 out) ∧
      out[i]? = some (if 0 ≤ s ∧ s < 86400 then
        some (match part with
          | .Hour => s.tdiv 3600
          | .Minute => (s.tdiv 60).tmod 60
          | .Second => s.tmod 60
          | _ => 0)
        else none) := by
  have hcheck : ∀ v : Option Int,
      (if 0 ≤ s ∧ s < 86400 then v else none) =
        (if time32SRangeCheck s then v else none) := by
    intro v
    by_cases hs : 0 ≤ s ∧ s < 86400
    · rw [if_pos hs, if_pos]
      unfold time32SRangeCheck
      simp only [Bool.and_eq_true, decide_eq_true_eq]
      exact ⟨hs.1, hs.2⟩
    · rw [if_neg hs, if_neg]
      unfold time32SRangeCheck
      simp only [Bool.and_eq_true, decide_eq_true_eq]
      omega
  rcases hpart with h | h | h | h | h | h <;> subst h <;>
    refine ⟨_, rfl, ?_⟩ <;>
    simp only [unaryOpt, List.getElem?_map, hx, Option.map_some',
      Option.some_bind, Option.some.injEq] <;>
    rw [hcheck]

/-- Witness for C4: in-range value 3661 with part `Hour`. -/
theorem claim_C4_witness :
    ∃ out, datePart (.time32Second [some 3661]) .Hour = .ok (.int32 out) ∧
      out[0]? = some (if 0 ≤ (3661 : Int) ∧ (3661 : Int) < 86400 then
        some ((3661 : Int).tdiv 3600) else none) :=
  claim_C4 [some 3661] .Hour (Or.inl rfl) 0 3661 rfl

/-- C8: extracting any sub-day part (`Hour`, `Minute`, `Second`,
`Millisecond`, `Microsecond`, `Nanosecond`) from a Date32 array yields `0`
at every non-null position (nulls stay null); from a Date64 array it yields
the sub-day component derived from the element's millisecond-of-day
remainder (for elements within chrono's representable range). -/
theorem claim_C8 :
    (∀ (xs : List (Option Int)) (part : DatePart),
      part = .Hour ∨ part = .Minute ∨ part = .Second ∨
        part = .Millisecond ∨ part = .Microsecond ∨ part = .Nanosecond →
      datePart (.date32 xs) part =
        .ok (.int32 (xs.map (Option.map fun _ => (0 : Int))))) ∧
    (∀ (xs : List (Option Int)) (part : DatePart) (i : Nat) (d : Int),
      (part = .Hour ∨ part = .Minute ∨ part = .Second ∨
        part = .Millisecond ∨ part = .Microsecond ∨ part = .Nanosecond) →
      xs[i]? = some (some d) →
      chronoMinDays ≤ d / 1000 / 86400 → d / 1000 / 86400 ≤ chronoMaxDays →
      ∃ out, datePart (.date64 xs) part = .ok (.int32 out) ∧
        out[i]? = some (some (
          match part with
          | .Hour => d % 86400000 / 3600000
          | .Minute => d % 86400000 / 60000 % 60
          | .Second => d % 86400000 / 1000 % 60
          | .Millisecond => d % 86400000 % 1000
          | .Microsecond => d % 86400000 % 1000 * 1000
          | .Nanosecond => d % 86400000 % 1000 * 1000000
          | _ => 0))) := by
  constructor
  · intro xs part hpart
    rcases hpart with h | h | h | h | h | h <;> subst h <;> rfl
  · intro xs part i d hpart hx hlo hhi
    have hr0 : 0 ≤ d % 1000 ∧ d % 1000 < 1000 := by omega
    have hnsec : (d % 1000).toNat * 1000000 < 2000000000 := by omega
    have hdt : date64ToDatetime d =
        some ⟨d / 1000 / 86400,
          (d / 1000 % 86400).toNat * 1000000000 + (d % 1000).toNat * 1000000⟩ := by
      unfold date64ToDatetime dateTimeFromTimestamp
      rw [if_pos ⟨hnsec, hlo, hhi⟩]
    rcases hpart with h | h | h | h | h | h <;> subst h <;>
      refine ⟨_, rfl, ?_⟩ <;>
      simp only [unaryOpt, List.getElem?_map, hx, Option.map_some',
        Option.some_bind, Option.some.injEq, hdt,
        getDateTimePartExtractFn, DateTimeM.nanosecondOf] <;>
      omega

/-- Witness for C8: Date32 value 5 (and a null) with part `Hour`; Date64
value 1550636625000 ms (2019-02-20T04:23:45) with part `Hour`, giving 4. -/
theorem claim_C8_witness :
    (datePart (.date32 [some 5, none]) .Hour =
      .ok (.int32 [some 0, none])) ∧
    ∃ out, datePart (.date64 [some 1550636625000]) .Hour =
        .ok (.int32 out) ∧
      out[0]? = some (some ((1550636625000 : Int) % 86400000 / 3600000)) :=
  ⟨claim_C8.1 [some 5, none] .Hour (Or.inl rfl),
   claim_C8.2 [some 1550636625000] .Hour 0 1550636625000 (Or.inl rfl) rfl
     (by decide) (by decide)⟩

/-- C9: timestamp-seconds 0 (1970-01-01, a Thursday) has `WeekISO = 1` and
`YearISO = 1970`; 345600 (1970-01-05, a Monday) has `WeekISO = 2`; 345599
(1970-01-04, a Sunday) has `WeekISO = 1`. -/
theorem claim_C9 :
    datePart (.timestampSecond [some 0, some 345600, some 345599]) .WeekISO =
      .ok (.int32 [some 1, some 2, some 1]) ∧
    datePart (.timestampSecond [some 0]) .YearISO =
      .ok (.int32 [some 1970]) :=
  ⟨by rfl, by rfl⟩

/-- `(Except.ok a) >>= f` reduces to `f a`. -/
theorem bindOk {α β : Type} (a : α) (f : α → Except ArrowError β) :
    (Except.ok a : Except ArrowError α) >>= f = f a := rfl

/-- C2 counterexample: rescaling `[12345]` from `Decimal128(5, 2)` to
`Decimal128(3, 1)` in strict mode fails on the precision-fit check of the
scaled value `1235`; the error comes from the precision validator (which
receives only the scaled value and the output precision), NOT the claimed
cast error `"Cannot cast to Decimal128(3, 1). Overflowing on 12345"` naming
the offending input value and the output scale. -/
theorem claim_C2_counterexample :
    convertToSmallerScaleDecimal [some 12345] 5 2 3 1 false =
      .error (.castError
        "Cannot cast to Decimal128 of precision 3. Overflowing on 1235") ∧
    castDecimalToDecimalError 3 1 12345 =
      .castError "Cannot cast to Decimal128(3, 1). Overflowing on 12345" ∧
    ¬ convertToSmallerScaleDecimal [some 12345] 5 2 3 1 false =
      .error (castDecimalToDecimalError 3 1 12345) := by
  have h1 : convertToSmallerScaleDecimal [some 12345] 5 2 3 1 false =
      .error (.castError
        "Cannot cast to Decimal128 of precision 3. Overflowing on 1235") := by
    rfl
  have h2 : castDecimalToDecimalError 3 1 12345 =
      .castError "Cannot cast to Decimal128(3, 1). Overflowing on 12345" := by
    rfl
  refine ⟨h1, h2, fun h => ?_⟩
  rw [h1, h2] at h
  simp only [Except.error.injEq, ArrowError.castError.injEq] at h
  exact absurd h (by decide)

/-- C2 (amended): in a rescale that is not statically infallible, an element
whose scaled value fails the precision-fit predicate becomes null under the
safe policy (and the call succeeds), while under the strict policy the call
fails with the precision validator's error for the scaled value (the
`cast_decimal_to_decimal_error` message naming the input value is reserved
for elements whose conversion itself overflows). -/
theorem claim_C2_amended (xs ys : List (Option Int)) (p1 : Nat) (s1 : Int)
    (p2 : Nat) (s2 : Int) (i : Nat) (x v : Int) (err : ArrowError)
    (hni : ¬ ((p1 : Int) - (s1 - s2) < (p2 : Int)))
    (hpow : inRangeInt 128 ((10 : Int) ^ u32Cast (s1 - s2)))
    (hx : xs[i]? = some (some x))
    (hf : smallerScaleElem ((10 : Int) ^ u32Cast (s1 - s2)) x = some v)
    (hfit : isValidDecimalPrecision v p2 = false)
    (hval : validateDecimalPrecision v p2 = .error err) :
    (∃ out, convertToSmallerScaleDecimal xs p1 s1 p2 s2 true = .ok out ∧
      out[i]? = some none) ∧
    convertToSmallerScaleDecimal (some x :: ys) p1 s1 p2 s2 false =
      .error err := by
  have hp : powChecked 128 10 (u32Cast (s1 - s2)) =
      .ok ((10 : Int) ^ u32Cast (s1 - s2)) := by
    unfold powChecked; rw [if_pos hpow]
  constructor
  · refine ⟨unaryOpt (fun x =>
      (smallerScaleElem ((10 : Int) ^ u32Cast (s1 - s2)) x).filter
        (fun v => isValidDecimalPrecision v p2)) xs, ?_, ?_⟩
    · simp only [convertToSmallerScaleDecimal, hp, bindOk]
      rw [if_neg hni]
      simp
    · simp only [unaryOpt, List.getElem?_map, hx, Option.map_some',
        Option.some_bind, Option.some.injEq, hf, Option.filter_some, hfit]
      rfl
  · simp only [convertToSmallerScaleDecimal, hp, bindOk]
    rw [if_neg hni]
    simp only [Bool.false_eq_true, if_false, tryUnary, hf, hval]
    rfl

/-- Witness for the amended C2, at the counterexample's concrete input. -/
theorem claim_C2_amended_witness :
    (∃ out, convertToSmallerScaleDecimal [some 12345] 5 2 3 1 true =
        .ok out ∧ out[0]? = some none) ∧
    convertToSmallerScaleDecimal [some 12345] 5 2 3 1 false =
      .error (.castError
        "Cannot cast to Decimal128 of precision 3. Overflowing on 1235") :=
  claim_C2_amended [some 12345] [] 5 2 3 1 0 12345 1235
    (.castError "Cannot cast to Decimal128 of precision 3. Overflowing on 1235")
    (by decide) (by decide) rfl (by rfl) (by rfl) (by rfl)

/-- `(Except.error e) >>= f` reduces to `.error e`. -/
theorem bindErr {α β : Type} (e : ArrowError) (f : α → Except ArrowError β) :
    (Except.error e : Except ArrowError α) >>= f = .error e := rfl

/-- Shrinking division-with-rounding is a retraction of exact
multiplication: `(v * 10 ^ e)` divided back by `10 ^ e` rounds to exactly
`v`. -/
theorem smallerScaleElem_mul_cancel {v : Int} {e : Nat}
    (h1 : 1 ≤ e) (h38 : e ≤ 38)
    (hw : inRangeInt 128 (v * 10 ^ e)) :
    smallerScaleElem ((10 : Int) ^ e) (v * 10 ^ e) = some v := by
  rw [smallerScaleElem_eq_spec hw h1 h38]
  have hdpos : (0 : Int) < 10 ^ e := pow_pos (by norm_num) _
  have hd10 : (10 : Int) ≤ 10 ^ e := by
    calc (10 : Int) = 10 ^ 1 := (pow_one 10).symm
    _ ≤ 10 ^ e := pow_le_pow_right₀ (by norm_num) h1
  congr 1
  unfold roundHalfAwayFromZeroSpec
  rw [Int.mul_tdiv_cancel _ (ne_of_gt hdpos), Int.mul_tmod_left]
  dsimp only
  rw [if_neg (fun h => by have := h.2; omega),
    if_neg (fun h => by have := h.2; omega)]

/-- C6: a value `v` of a decimal array (satisfying its precision invariant)
rescaled from scale `s1` to a larger scale `s2` (multiplying by
`10 ^ (s2 - s1)`) and then rescaled back to `s1` (dividing with rounding)
comes back exactly as `v`, provided neither direction failed (strict mode:
any overflow or precision failure aborts instead of producing output). -/
theorem claim_C6 {v : Int} {w : List (Option Int)} {p1 p2 : Nat}
    {s1 s2 : Int}
    (hp1 : 1 ≤ p1) (hp1m : p1 ≤ 38) (hp2m : p2 ≤ 38)
    (hs : s1 < s2) (hs1m : s1 ≤ 38) (hs1lo : -128 ≤ s1) (hs2hi : s2 ≤ 127)
    (hv : isValidDecimalPrecision v p1 = true)
    (hok : convertToBiggerOrEqualScaleDecimal [some v] p1 s1 p2 s2 false =
      .ok w) :
    convertToSmallerScaleDecimal w p2 s2 p1 s1 false = .ok [some v] := by
  -- the exponent actually used by both directions
  set e := u32Cast (s2 - s1) with hedef
  have he : (e : Int) = s2 - s1 := by
    rw [hedef]
    unfold u32Cast
    rw [Int.emod_eq_of_lt (by omega) (by omega)]
    omega
  have he1 : 1 ≤ e := by omega
  -- the power check must have passed, else the growing cast errors
  by_cases hpow : inRangeInt 128 ((10 : Int) ^ e)
  case neg =>
    have hp : powChecked 128 10 e = .error (.computeError
        "Overflow happened on pow") := by
      unfold powChecked; rw [if_neg hpow]
    rw [convertToBiggerOrEqualScaleDecimal] at hok
    rw [hp, bindErr] at hok
    exact Except.noConfusion hok
  have he38 : e ≤ 38 := by
    by_contra hgt
    have h39 : (10 : Int) ^ 39 ≤ 10 ^ e := pow_le_pow_right₀ (by norm_num) (by omega)
    have : (2 : Int) ^ 127 < 10 ^ 39 := by norm_num
    rcases hpow with ⟨_, hu⟩
    simp only [Nat.reduceSub] at hu
    omega
  have hp : powChecked 128 10 e = .ok ((10 : Int) ^ e) := by
    unfold powChecked; rw [if_pos hpow]
  have hMpos : (0 : Int) < 10 ^ e := pow_pos (by norm_num) _
  simp only [isValidDecimalPrecision, Bool.and_eq_true, decide_eq_true_eq] at hv
  -- step 1: what the growing cast produced
  have hw' : w = [some (v * 10 ^ e)] ∧ inRangeInt 128 (v * 10 ^ e) := by
    simp only [convertToBiggerOrEqualScaleDecimal, ← hedef, hp, bindOk] at hok
    by_cases hinf : (p1 : Int) + (s2 - s1) ≤ (p2 : Int)
    · rw [if_pos hinf] at hok
      have hvm : inRangeInt 128 (v * 10 ^ e) := by
        have hA : (10 : Int) ^ p1 * 10 ^ e ≤ 10 ^ 38 := by
          rw [← pow_add]
          exact pow_le_pow_right₀ (by norm_num) (by omega)
        have hlit : (10 : Int) ^ 38 < 2 ^ 127 := by norm_num
        have hb1 : v * 10 ^ e ≤ (10 ^ p1 - 1) * 10 ^ e :=
          mul_le_mul_of_nonneg_right (by omega) (le_of_lt hMpos)
        have hb2 : (-(10 ^ p1 - 1)) * 10 ^ e ≤ v * 10 ^ e :=
          mul_le_mul_of_nonneg_right (by omega) (le_of_lt hMpos)
        have heq1 : ((10 : Int) ^ p1 - 1) * 10 ^ e =
            10 ^ p1 * 10 ^ e - 10 ^ e := by ring
        have heq2 : (-((10 : Int) ^ p1 - 1)) * 10 ^ e =
            -(10 ^ p1 * 10 ^ e) + 10 ^ e := by ring
        rw [inRangeInt_def]
        simp only [Nat.reduceSub]
        constructor <;> linarith
      by_cases hps : 1 ≤ p2 ∧ p2 ≤ decimal128MaxPrecision ∧
          s2 ≤ decimal128MaxScale
      case neg =>
        have hval : validateDecimalPrecisionAndScale p2 s2 =
            .error (.invalidArgumentError "invalid precision or scale") := by
          unfold validateDecimalPrecisionAndScale
          rw [if_neg hps]
        simp only [hval, bindErr] at hok
        exact Except.noConfusion hok
      have hval : validateDecimalPrecisionAndScale p2 s2 = .ok () := by
        unfold validateDecimalPrecisionAndScale
        rw [if_pos hps]
      rw [hval] at hok
      simp only [bindOk, unaryArr, List.map_cons, List.map_nil,
        Option.map_some', Except.ok.injEq] at hok
      rw [← hok]
      refine ⟨?_, hvm⟩
      simp [mulWrapping, wrapInt_eq_self (by norm_num) hvm]
    · rw [if_neg hinf] at hok
      simp only [Bool.false_eq_true, if_false, tryUnary] at hok
      by_cases hmr : inRangeInt 128 (v * 10 ^ e)
      · have hbe : biggerScaleElem ((10 : Int) ^ e) v = some (v * 10 ^ e) := by
          unfold biggerScaleElem mulChecked
          rw [if_pos hmr]
        by_cases hfit : isValidDecimalPrecision (v * 10 ^ e) p2 = true
        · have hvalp : validateDecimalPrecision (v * 10 ^ e) p2 = .ok () := by
            unfold validateDecimalPrecision; rw [if_pos hfit]
          simp only [hbe, hvalp, bindOk, Except.ok.injEq] at hok
          exact ⟨hok.symm, hmr⟩
        · have hvalp : validateDecimalPrecision (v * 10 ^ e) p2 =
              .error (.castError ("Cannot cast to Decimal128 of precision " ++
                toString p2 ++ ". Overflowing on " ++ toString (v * 10 ^ e))) := by
            unfold validateDecimalPrecision
            rw [if_neg (by simpa using hfit)]
          simp only [hbe, hvalp, bindErr] at hok
          exact Except.noConfusion hok
      · have hbe : biggerScaleElem ((10 : Int) ^ e) v = none := by
          unfold biggerScaleElem mulChecked
          rw [if_neg hmr]
        simp only [hbe, bindErr] at hok
        exact Except.noConfusion hok
  obtain ⟨hwv, hvm⟩ := hw'
  subst hwv
  -- step 2: the shrinking cast takes it back
  have helem : smallerScaleElem ((10 : Int) ^ e) (v * 10 ^ e) = some v :=
    smallerScaleElem_mul_cancel he1 he38 hvm
  simp only [convertToSmallerScaleDecimal, ← hedef, hp, bindOk]
  by_cases hinf2 : (p2 : Int) - (s2 - s1) < (p1 : Int)
  · rw [if_pos hinf2]
    have hval : validateDecimalPrecisionAndScale p1 s1 = .ok () := by
      unfold validateDecimalPrecisionAndScale
      rw [if_pos ⟨hp1, hp1m, by unfold decimal128MaxScale; omega⟩]
    rw [hval]
    simp [bindOk, unaryArr, helem]
  · rw [if_neg hinf2]
    simp only [Bool.false_eq_true, if_false, tryUnary, helem]
    have hvalp : validateDecimalPrecision v p1 = .ok () := by
      unfold validateDecimalPrecision
      rw [if_pos]
      simp only [isValidDecimalPrecision, Bool.and_eq_true, decide_eq_true_eq]
      exact ⟨hv.1, hv.2⟩
    rw [hvalp]
    rfl


/-- Witness for C6: 123 at `Decimal128(3, 0)` grown to `Decimal128(5, 2)`
(giving 12300) and shrunk back, in strict mode. -/
theorem claim_C6_witness :
    convertToSmallerScaleDecimal [some 12300] 5 2 3 0 false =
      .ok [some 123] :=
  @claim_C6 123 [some 12300] 3 5 0 2
    (by decide) (by decide) (by decide) (by decide) (by decide) (by decide)
    (by decide) (by rfl) (by rfl)

/-! ## Helper lemmas for the string-to-decimal parser -/

theorem digitsValAux_append (xs ys : List Char) (acc : Nat) :
    digitsValAux acc (xs ++ ys) =
      (digitsValAux acc xs).bind (fun r => digitsValAux r ys) := by
  induction xs generalizing acc with
  | nil => rfl
  | cons c cs ih =>
    simp only [List.cons_append, digitsValAux, List.append_eq]
    by_cases hc : c.isDigit
    · rw [if_pos hc, if_pos hc, ih]
    · rw [if_neg hc, if_neg hc]
      rfl

theorem digitsValAux_shift (xs : List Char) (acc : Nat) :
    digitsValAux acc xs =
      (digitsValAux 0 xs).map (fun v => acc * 10 ^ xs.length + v) := by
  induction xs generalizing acc with
  | nil => simp [digitsValAux]
  | cons c cs ih =>
    simp only [digitsValAux]
    by_cases hc : c.isDigit
    · rw [if_pos hc, if_pos hc, ih (acc * 10 + (c.toNat - 48)),
        ih (0 * 10 + (c.toNat - 48)), Option.map_map]
      congr 1
      funext v
      simp only [Function.comp_apply, List.length_cons]
      ring
    · rw [if_neg hc, if_neg hc]
      rfl

theorem digitsValAux_replicate_zero (z acc : Nat) :
    digitsValAux acc (List.replicate z '0') = some (acc * 10 ^ z) := by
  induction z generalizing acc with
  | zero => simp [digitsValAux]
  | succ n ih =>
    rw [List.replicate_succ]
    simp only [digitsValAux, show ('0' : Char).isDigit = true by decide,
      if_pos, show ('0' : Char).toNat - 48 = 0 by decide]
    rw [ih]
    congr 1
    ring

theorem digitsValAux_all_digit {xs : List Char} {acc n : Nat}
    (h : digitsValAux acc xs = some n) : ∀ c ∈ xs, c.isDigit = true := by
  induction xs generalizing acc with
  | nil => simp
  | cons c cs ih =>
    simp only [digitsValAux] at h
    by_cases hc : c.isDigit
    · rw [if_pos hc] at h
      intro d hd
      rcases List.mem_cons.mp hd with rfl | hd'
      · exact hc
      · exact ih h d hd'
    · rw [if_neg hc] at h
      exact absurd h (by simp)

theorem digitChar_isDigit {d : Nat} (h : d < 10) :
    (Nat.digitChar d).isDigit = true := by
  interval_cases d <;> decide

theorem digitChar_toNat {d : Nat} (h : d < 10) :
    (Nat.digitChar d).toNat - 48 = d := by
  interval_cases d <;> decide

theorem natDigitsAux_zero (fuel : Nat) : natDigitsAux fuel 0 = [] := by
  cases fuel <;> simp [natDigitsAux]

theorem natDigitsAux_spec :
    ∀ (fuel n acc : Nat), n ≤ fuel →
      digitsValAux acc (natDigitsAux fuel n) =
        some (acc * 10 ^ (natDigitsAux fuel n).length + n) := by
  intro fuel
  induction fuel with
  | zero =>
    intro n acc h
    interval_cases n
    simp [natDigitsAux, digitsValAux]
  | succ f ih =>
    intro n acc h
    by_cases hn : n = 0
    · subst hn
      simp [natDigitsAux, digitsValAux]
    · rw [show natDigitsAux (f + 1) n =
          natDigitsAux f (n / 10) ++ [Nat.digitChar (n % 10)] by
        simp [natDigitsAux, hn]]
      rw [digitsValAux_append, ih (n / 10) acc (by omega)]
      simp only [Option.some_bind, digitsValAux,
        digitChar_isDigit (Nat.mod_lt n (by norm_num)),
        if_pos, digitChar_toNat (Nat.mod_lt n (by norm_num))]
      rw [List.length_append, List.length_singleton]
      congr 1
      rw [pow_succ, ← Nat.mul_assoc, Nat.add_mul]
      omega

theorem natDigitsAux_ne_nil {n f : Nat} (h1 : 1 ≤ n) (h2 : n ≤ f) :
    natDigitsAux f n ≠ [] := by
  obtain ⟨f', rfl⟩ : ∃ f', f = f' + 1 := ⟨f - 1, by omega⟩
  simp only [natDigitsAux, if_neg (by omega : ¬ n = 0)]
  simp

theorem natDigitsAux_all_digit :
    ∀ (f n : Nat), n ≤ f → ∀ c ∈ natDigitsAux f n, c.isDigit = true := by
  intro f
  induction f with
  | zero =>
    intro n h c hc
    interval_cases n
    simp [natDigitsAux] at hc
  | succ f' ih =>
    intro n h c hc
    by_cases hn : n = 0
    · subst hn; simp [natDigitsAux] at hc
    · simp only [natDigitsAux, if_neg hn, List.mem_append,
        List.mem_singleton] at hc
      rcases hc with hc | rfl
      · exact ih (n / 10) (by omega) c hc
      · exact digitChar_isDigit (Nat.mod_lt n (by norm_num))

theorem parseDigitsNat_of_ne_nil {cs : List Char} (h : cs ≠ []) :
    parseDigitsNat cs = digitsValAux 0 cs := by
  cases cs with
  | nil => exact absurd rfl h
  | cons c cs' => rfl

theorem parseDigitsNat_natToChars (n : Nat) :
    parseDigitsNat (natToChars n) = some n := by
  by_cases hn : n = 0
  · subst hn; decide
  · rw [natToChars, if_neg hn,
      parseDigitsNat_of_ne_nil (natDigitsAux_ne_nil (by omega) le_rfl),
      natDigitsAux_spec n n 0 le_rfl]
    simp

theorem natToChars_all_digit (n : Nat) :
    ∀ c ∈ natToChars n, c.isDigit = true := by
  by_cases hn : n = 0
  · subst hn; decide
  · rw [natToChars, if_neg hn]
    exact natDigitsAux_all_digit n n le_rfl

theorem natToChars_ne_nil (n : Nat) : natToChars n ≠ [] := by
  by_cases hn : n = 0
  · subst hn; decide
  · rw [natToChars, if_neg hn]
    exact natDigitsAux_ne_nil (by omega) le_rfl

theorem isDigit_facts {c : Char} (h : c.isDigit = true) :
    c ≠ '.' ∧ c ≠ '-' ∧ c ≠ '+' ∧ c.isWhitespace = false := by
  refine ⟨fun hc => ?_, fun hc => ?_, fun hc => ?_, ?_⟩
  · subst hc; exact absurd h (by decide)
  · subst hc; exact absurd h (by decide)
  · subst hc; exact absurd h (by decide)
  · by_contra hw
    simp only [Bool.not_eq_false] at hw
    simp only [Char.isWhitespace, Bool.or_eq_true, decide_eq_true_eq] at hw
    rcases hw with ((rfl | rfl) | rfl) | rfl <;> exact absurd h (by decide)

theorem i256FromChars_intToChars {v : Int} (h : inRangeInt 256 v) :
    i256FromChars (intToChars v) = some v := by
  by_cases hv : v < 0
  · have hstep : i256FromChars ('-' :: natToChars v.natAbs) =
        (parseDigitsNat (natToChars v.natAbs)).bind
          fun n => narrowTo 256 (-(n : Int)) := by
      simp [i256FromChars]
    have hneg : -((v.natAbs : Nat) : Int) = v := by omega
    rw [intToChars, if_pos hv]
    calc i256FromChars ('-' :: natToChars v.natAbs)
        = (parseDigitsNat (natToChars v.natAbs)).bind
            (fun n => narrowTo 256 (-(n : Int))) := hstep
      _ = (some v.natAbs).bind (fun n => narrowTo 256 (-(n : Int))) := by
          rw [parseDigitsNat_natToChars]
      _ = narrowTo 256 (-((v.natAbs : Nat) : Int)) := by rw [Option.some_bind]
      _ = narrowTo 256 v := by rw [hneg]
      _ = some v := by unfold narrowTo; rw [if_pos h]
  · obtain ⟨c, rest, hc⟩ : ∃ c rest, natToChars v.toNat = c :: rest := by
      cases hcs : natToChars v.toNat with
      | nil => exact absurd hcs (natToChars_ne_nil _)
      | cons c rest => exact ⟨c, rest, rfl⟩
    have hcd : c.isDigit = true := by
      have hall := natToChars_all_digit v.toNat
      rw [hc] at hall
      exact hall c (by simp)
    obtain ⟨-, hnd, hnp, -⟩ := isDigit_facts hcd
    have hstep : i256FromChars (c :: rest) =
        (parseDigitsNat (c :: rest)).bind fun n => narrowTo 256 (n : Int) := by
      simp [i256FromChars, hnd, hnp]
    have hval : parseDigitsNat (c :: rest) = some v.toNat := by
      rw [← hc, parseDigitsNat_natToChars]
    rw [intToChars, if_neg hv, hc]
    calc i256FromChars (c :: rest)
        = (parseDigitsNat (c :: rest)).bind fun n => narrowTo 256 (n : Int) :=
          hstep
      _ = (some v.toNat).bind fun n => narrowTo 256 (n : Int) := by rw [hval]
      _ = narrowTo 256 ((v.toNat : Int)) := by rw [Option.some_bind]
      _ = narrowTo 256 v := by rw [Int.toNat_of_nonneg (not_lt.mp hv)]
      _ = some v := by unfold narrowTo; rw [if_pos h]

theorem dropWhile_eq_self_of_head {p : Char → Bool} {cs : List Char}
    (h : ∀ c, cs.head? = some c → p c = false) : cs.dropWhile p = cs := by
  cases cs with
  | nil => rfl
  | cons c cs' =>
    rw [List.dropWhile_cons_of_neg]
    simp [h c rfl]

theorem trimChars_eq_self {cs : List Char}
    (h1 : ∀ c, cs.head? = some c → c.isWhitespace = false)
    (h2 : ∀ c, cs.getLast? = some c → c.isWhitespace = false) :
    trimChars cs = cs := by
  unfold trimChars
  rw [dropWhile_eq_self_of_head h1,
    dropWhile_eq_self_of_head (fun c hc =>
      h2 c (by rwa [List.head?_reverse] at hc)),
    List.reverse_reverse]

theorem splitOnDot_no_dot {cs : List Char} (h : ∀ c ∈ cs, ¬ c = '.') :
    splitOnDot cs = [cs] := by
  induction cs with
  | nil => rfl
  | cons c cs' ih =>
    simp only [splitOnDot]
    rw [if_neg (h c (by simp)), ih (fun d hd => h d (by simp [hd]))]

theorem splitOnDot_append_dot (a b : List Char) (h : ∀ c ∈ a, ¬ c = '.') :
    splitOnDot (a ++ '.' :: b) = a :: splitOnDot b := by
  induction a with
  | nil =>
    simp [splitOnDot]
  | cons c a' ih =>
    simp only [List.cons_append, splitOnDot, List.append_eq]
    rw [if_neg (h c (by simp)), ih (fun d hd => h d (by simp [hd]))]

theorem parseDigitsNat_facts {cs : List Char} {n : Nat}
    (h : parseDigitsNat cs = some n) :
    cs ≠ [] ∧ (∀ c ∈ cs, c.isDigit = true) ∧ digitsValAux 0 cs = some n := by
  cases cs with
  | nil => exact absurd h (by simp [parseDigitsNat])
  | cons c cs' =>
    rw [parseDigitsNat_of_ne_nil (by simp)] at h
    exact ⟨by simp, digitsValAux_all_digit h, h⟩

theorem parse_pad_general (ip fp : List Char) (scale : Nat) (I F : Nat)
    (hip : parseDigitsNat ip = some I) (hfp : parseDigitsNat fp = some F)
    (hlen : fp.length ≤ scale)
    (h256 : inRangeInt 256
      ((I : Int) * 10 ^ scale + (F : Int) * 10 ^ (scale - fp.length)))
    (h128 : inRangeInt 128
      ((I : Int) * 10 ^ scale + (F : Int) * 10 ^ (scale - fp.length))) :
    parseStringToDecimalNative (String.mk (ip ++ '.' :: fp)) scale =
      .ok ((I : Int) * 10 ^ scale + (F : Int) * 10 ^ (scale - fp.length)) := by
  obtain ⟨hipne, hipd, hipval⟩ := parseDigitsNat_facts hip
  obtain ⟨hfpne, hfpd, hfpval⟩ := parseDigitsNat_facts hfp
  obtain ⟨c0, ip', rfl⟩ : ∃ c0 ip', ip = c0 :: ip' := by
    cases ip with
    | nil => exact absurd rfl hipne
    | cons c0 ip' => exact ⟨c0, ip', rfl⟩
  have hc0d : c0.isDigit = true := hipd c0 (by simp)
  obtain ⟨hc0dot, hc0dash, hc0plus, hc0ws⟩ := isDigit_facts hc0d
  have htrim : trimChars ((c0 :: ip') ++ '.' :: fp) =
      (c0 :: ip') ++ '.' :: fp := by
    apply trimChars_eq_self
    · intro c hc
      simp only [List.cons_append, List.head?_cons, Option.some.injEq] at hc
      subst hc
      exact hc0ws
    · intro c hc
      rw [List.getLast?_append] at hc
      have hfl : ('.' :: fp).getLast? = fp.getLast? := by
        cases fp with
        | nil => exact absurd rfl hfpne
        | cons d fp' => simp
      rw [hfl] at hc
      cases hlast : fp.getLast? with
      | none => exact absurd (List.getLast?_eq_none_iff.mp hlast) hfpne
      | some d =>
        rw [hlast, Option.or_some, Option.some.injEq] at hc
        subst hc
        exact (isDigit_facts (hfpd d (List.mem_of_mem_getLast? hlast))).2.2.2
  have hsplit : splitOnDot ((c0 :: ip') ++ '.' :: fp) = [c0 :: ip', fp] := by
    rw [splitOnDot_append_dot _ _
        (fun d hd => (isDigit_facts (hipd d hd)).1),
      splitOnDot_no_dot (fun d hd => (isDigit_facts (hfpd d hd)).1)]
  obtain ⟨d0, fp', rfl⟩ : ∃ d0 fp', fp = d0 :: fp' := by
    cases fp with
    | nil => exact absurd rfl hfpne
    | cons d0 fp' => exact ⟨d0, fp', rfl⟩
  have hd0d : d0.isDigit = true := hfpd d0 (by simp)
  have hngt : ¬ (d0 :: fp').length > scale := by omega
  simp only [parseStringToDecimalNative, htrim, hsplit]
  simp only [List.length_cons, List.length_nil, List.headD_cons,
    List.isEmpty_cons, List.getD_cons_succ, List.getD_cons_zero,
    hc0dash, hc0plus, hc0d, hd0d, hngt, if_false, if_true]
  have hlen' : fp'.length + 1 ≤ scale := by simpa using hlen
  simp only [Nat.reduceAdd, gt_iff_lt, Nat.lt_irrefl, if_false,
    Bool.false_eq_true, not_false_iff, not_true, and_false, false_and,
    List.isEmpty_cons, ite_self, if_neg (by omega : ¬ (2 : Nat) < 2),
    if_neg (by omega : ¬ scale < fp'.length + 1)]
  simp only [List.headD_cons, hc0d, not_true, true_and, and_false, if_false]
  have hpad : padRightZeros (d0 :: fp')
        (if fp'.length + 1 < scale then scale else 0) =
      (d0 :: fp') ++ List.replicate (scale - (fp'.length + 1)) '0' := by
    unfold padRightZeros
    by_cases hc : fp'.length + 1 < scale
    · rw [if_pos hc]
      simp
    · rw [if_neg hc]
      have hse : scale = fp'.length + 1 := by omega
      subst hse
      simp
  rw [hpad, bindOk]
  simp only [List.length_cons] at h256 h128
  have hcast : (((I * 10 ^ (fp'.length + 1) + F) *
        10 ^ (scale - (fp'.length + 1)) : Nat) : Int) =
      (I : Int) * 10 ^ scale + (F : Int) * 10 ^ (scale - (fp'.length + 1)) := by
    push_cast
    rw [add_mul, mul_assoc, ← pow_add]
    have hexp : fp'.length + 1 + (scale - (fp'.length + 1)) = scale := by omega
    rw [hexp]
  have hvalall : parseDigitsNat ((c0 :: ip') ++
        ((d0 :: fp') ++ List.replicate (scale - (fp'.length + 1)) '0')) =
      some ((I * 10 ^ (fp'.length + 1) + F) *
        10 ^ (scale - (fp'.length + 1))) := by
    rw [parseDigitsNat_of_ne_nil (by simp)]
    rw [digitsValAux_append, hipval, Option.some_bind, digitsValAux_append,
      digitsValAux_shift (d0 :: fp') I, hfpval]
    simp only [Option.map_some', Option.some_bind, List.length_cons]
    rw [digitsValAux_replicate_zero]
  have hfull : i256FromChars ((c0 :: ip') ++
        ((d0 :: fp') ++ List.replicate (scale - (fp'.length + 1)) '0')) =
      some ((I : Int) * 10 ^ scale +
        (F : Int) * 10 ^ (scale - (fp'.length + 1))) := by
    have hcons : (c0 :: ip') ++
        ((d0 :: fp') ++ List.replicate (scale - (fp'.length + 1)) '0') =
        c0 :: (ip' ++ ((d0 :: fp') ++
          List.replicate (scale - (fp'.length + 1)) '0')) := by simp
    calc i256FromChars ((c0 :: ip') ++ ((d0 :: fp') ++
            List.replicate (scale - (fp'.length + 1)) '0'))
        = (parseDigitsNat ((c0 :: ip') ++ ((d0 :: fp') ++
            List.replicate (scale - (fp'.length + 1)) '0'))).bind
            (fun n => narrowTo 256 (n : Int)) := by
          rw [hcons]
          simp [i256FromChars, hc0dash, hc0plus]
      _ = narrowTo 256 (((I * 10 ^ (fp'.length + 1) + F) *
            10 ^ (scale - (fp'.length + 1)) : Nat) : Int) := by
          rw [hvalall, Option.some_bind]
      _ = some ((I : Int) * 10 ^ scale +
            (F : Int) * 10 ^ (scale - (fp'.length + 1))) := by
          rw [hcast]
          unfold narrowTo
          rw [if_pos h256]
  simp only [hfull, bindOk]
  have hnar : narrowTo 128 ((I : Int) * 10 ^ scale +
      (F : Int) * 10 ^ (scale - (fp'.length + 1))) =
      some ((I : Int) * 10 ^ scale +
        (F : Int) * 10 ^ (scale - (fp'.length + 1))) := by
    unfold narrowTo
    rw [if_pos (by simpa using h128)]
  simp only [hnar]

theorem parse_round_general (ip fp : List Char) (scale : Nat) (I F : Nat)
    (hip : parseDigitsNat ip = some I) (hfp : parseDigitsNat fp = some F)
    (hlen : scale < fp.length)
    (hF : inRangeInt 256 (F : Int))
    (hI : inRangeInt 256 (I : Int))
    (hq : inRangeInt 256 ((10 : Int) ^ (fp.length - scale)))
    (hp : inRangeInt 256 ((10 : Int) ^ scale))
    (hIs : inRangeInt 256 ((I : Int) * 10 ^ scale))
    (hsum : inRangeInt 256 ((I : Int) * 10 ^ scale +
      roundHalfAwayFromZeroSpec (F : Int) ((10 : Int) ^ (fp.length - scale))))
    (h128 : inRangeInt 128 ((I : Int) * 10 ^ scale +
      roundHalfAwayFromZeroSpec (F : Int) ((10 : Int) ^ (fp.length - scale)))) :
    parseStringToDecimalNative (String.mk (ip ++ '.' :: fp)) scale =
      .ok ((I : Int) * 10 ^ scale +
        roundHalfAwayFromZeroSpec (F : Int) ((10 : Int) ^ (fp.length - scale))) := by
  obtain ⟨hipne, hipd, hipval⟩ := parseDigitsNat_facts hip
  obtain ⟨hfpne, hfpd, hfpval⟩ := parseDigitsNat_facts hfp
  obtain ⟨c0, ip', rfl⟩ : ∃ c0 ip', ip = c0 :: ip' := by
    cases ip with
    | nil => exact absurd rfl hipne
    | cons c0 ip' => exact ⟨c0, ip', rfl⟩
  have hc0d : c0.isDigit = true := hipd c0 (by simp)
  obtain ⟨hc0dot, hc0dash, hc0plus, hc0ws⟩ := isDigit_facts hc0d
  have htrim : trimChars ((c0 :: ip') ++ '.' :: fp) =
      (c0 :: ip') ++ '.' :: fp := by
    apply trimChars_eq_self
    · intro c hc
      simp only [List.cons_append, List.head?_cons, Option.some.injEq] at hc
      subst hc
      exact hc0ws
    · intro c hc
      rw [List.getLast?_append] at hc
      have hfl : ('.' :: fp).getLast? = fp.getLast? := by
        cases fp with
        | nil => exact absurd rfl hfpne
        | cons d fp' => simp
      rw [hfl] at hc
      cases hlast : fp.getLast? with
      | none => exact absurd (List.getLast?_eq_none_iff.mp hlast) hfpne
      | some d =>
        rw [hlast, Option.or_some, Option.some.injEq] at hc
        subst hc
        exact (isDigit_facts (hfpd d (List.mem_of_mem_getLast? hlast))).2.2.2
  have hsplit : splitOnDot ((c0 :: ip') ++ '.' :: fp) = [c0 :: ip', fp] := by
    rw [splitOnDot_append_dot _ _
        (fun d hd => (isDigit_facts (hipd d hd)).1),
      splitOnDot_no_dot (fun d hd => (isDigit_facts (hfpd d hd)).1)]
  obtain ⟨d0, fp', rfl⟩ : ∃ d0 fp', fp = d0 :: fp' := by
    cases fp with
    | nil => exact absurd rfl hfpne
    | cons d0 fp' => exact ⟨d0, fp', rfl⟩
  have hd0d : d0.isDigit = true := hfpd d0 (by simp)
  obtain ⟨hd0dot, hd0dash, hd0plus, hd0ws⟩ := isDigit_facts hd0d
  simp only [List.length_cons] at hlen hq hsum h128
  simp only [parseStringToDecimalNative, htrim, hsplit]
  simp only [List.length_cons, List.length_nil, List.headD_cons,
    List.isEmpty_cons, List.getD_cons_succ, List.getD_cons_zero,
    hc0dash, hc0plus, hc0d, hd0d, if_false, if_true]
  simp only [Nat.reduceAdd, gt_iff_lt, Nat.lt_irrefl, if_false,
    Bool.false_eq_true, not_false_iff, not_true, and_false, false_and,
    List.isEmpty_cons, ite_self, if_neg (by omega : ¬ (2 : Nat) < 2),
    if_pos (by omega : scale < fp'.length + 1)]
  simp only [List.headD_cons, hc0d, not_true, true_and, and_false, if_false]
  -- the fractional digits parse to F
  have hfpchars : i256FromChars (d0 :: fp') = some (F : Int) := by
    calc i256FromChars (d0 :: fp')
        = (parseDigitsNat (d0 :: fp')).bind
            (fun n => narrowTo 256 (n : Int)) := by
          simp [i256FromChars, hd0dash, hd0plus]
      _ = narrowTo 256 (F : Int) := by rw [hfp, Option.some_bind]
      _ = some (F : Int) := by unfold narrowTo; rw [if_pos hF]
  -- the integer digits parse to I
  have hipchars : i256FromChars (c0 :: ip') = some (I : Int) := by
    calc i256FromChars (c0 :: ip')
        = (parseDigitsNat (c0 :: ip')).bind
            (fun n => narrowTo 256 (n : Int)) := by
          simp [i256FromChars, hc0dash, hc0plus]
      _ = narrowTo 256 (I : Int) := by rw [hip, Option.some_bind]
      _ = some (I : Int) := by unfold narrowTo; rw [if_pos hI]
  have hpow : powChecked 256 10 (fp'.length + 1 - scale) =
      .ok ((10 : Int) ^ (fp'.length + 1 - scale)) := by
    unfold powChecked
    rw [if_pos hq]
  simp only [hfpchars, hpow, bindOk]
  simp only [List.isEmpty_cons, Bool.false_eq_true, not_false_iff, if_pos,
    hipchars, bindOk, if_true]
  -- eliminate the wrapping in the integer-part scaling
  have hpw : powWrapping 256 10 scale = (10 : Int) ^ scale := by
    unfold powWrapping
    exact wrapInt_eq_self (by norm_num) hp
  have hmw : mulWrapping 256 (I : Int) ((10 : Int) ^ scale) =
      (I : Int) * 10 ^ scale := by
    unfold mulWrapping
    exact wrapInt_eq_self (by norm_num) hIs
  rw [hpw, hmw]
  -- the rounding block is round-half-away-from-zero
  have hround :
      (if (F : Int) ≥ 0 then
        if modWrapping 256 (F : Int) ((10 : Int) ^ (fp'.length + 1 - scale)) ≥
            divWrapping 256 ((10 : Int) ^ (fp'.length + 1 - scale)) 2 then
          addWrapping 256
            (divWrapping 256 (F : Int) ((10 : Int) ^ (fp'.length + 1 - scale))) 1
        else divWrapping 256 (F : Int) ((10 : Int) ^ (fp'.length + 1 - scale))
      else
        if modWrapping 256 (F : Int) ((10 : Int) ^ (fp'.length + 1 - scale)) ≤
            negWrapping 256
              (divWrapping 256 ((10 : Int) ^ (fp'.length + 1 - scale)) 2) then
          subWrapping 256
            (divWrapping 256 (F : Int) ((10 : Int) ^ (fp'.length + 1 - scale))) 1
        else divWrapping 256 (F : Int) ((10 : Int) ^ (fp'.length + 1 - scale))) =
      roundHalfAwayFromZeroSpec (F : Int)
        ((10 : Int) ^ (fp'.length + 1 - scale)) :=
    wrapRound_eq (by norm_num) hF (by omega) hq
  rw [hround]
  have haw : addWrapping 256 ((I : Int) * 10 ^ scale)
      (roundHalfAwayFromZeroSpec (F : Int)
        ((10 : Int) ^ (fp'.length + 1 - scale))) =
      (I : Int) * 10 ^ scale +
        roundHalfAwayFromZeroSpec (F : Int)
          ((10 : Int) ^ (fp'.length + 1 - scale)) := by
    unfold addWrapping
    exact wrapInt_eq_self (by norm_num) hsum
  rw [haw]
  have hrt := i256FromChars_intToChars hsum
  simp only [hrt, bindOk]
  have hnar : narrowTo 128 ((I : Int) * 10 ^ scale +
      roundHalfAwayFromZeroSpec (F : Int)
        ((10 : Int) ^ (fp'.length + 1 - scale))) =
      some ((I : Int) * 10 ^ scale +
        roundHalfAwayFromZeroSpec (F : Int)
          ((10 : Int) ^ (fp'.length + 1 - scale))) := by
    unfold narrowTo
    rw [if_pos h128]
  simp only [hnar]

/-- C7: parsing a decimal string whose fractional part has more digits than
the target scale forms the full number in a 256-bit intermediate and drops
the excess fractional digits with round-half-away-from-zero; with at most
`scale` fractional digits the fraction is right-padded with zeros to length
`scale`.  In particular "123.4567891" parses to 12345679 at scale 5 and to
123 at scale 0. -/
theorem claim_C7 :
    parseStringToDecimalNative "123.4567891" 5 = .ok 12345679 ∧
    parseStringToDecimalNative "123.4567891" 0 = .ok 123 ∧
    (∀ (ip fp : List Char) (scale I F : Nat),
      parseDigitsNat ip = some I → parseDigitsNat fp = some F →
      scale < fp.length →
      inRangeInt 256 (F : Int) → inRangeInt 256 (I : Int) →
      inRangeInt 256 ((10 : Int) ^ (fp.length - scale)) →
      inRangeInt 256 ((10 : Int) ^ scale) →
      inRangeInt 256 ((I : Int) * 10 ^ scale) →
      inRangeInt 256 ((I : Int) * 10 ^ scale +
        roundHalfAwayFromZeroSpec (F : Int)
          ((10 : Int) ^ (fp.length - scale))) →
      inRangeInt 128 ((I : Int) * 10 ^ scale +
        roundHalfAwayFromZeroSpec (F : Int)
          ((10 : Int) ^ (fp.length - scale))) →
      parseStringToDecimalNative (String.mk (ip ++ '.' :: fp)) scale =
        .ok ((I : Int) * 10 ^ scale +
          roundHalfAwayFromZeroSpec (F : Int)
            ((10 : Int) ^ (fp.length - scale)))) ∧
    (∀ (ip fp : List Char) (scale I F : Nat),
      parseDigitsNat ip = some I → parseDigitsNat fp = some F →
      fp.length ≤ scale →
      inRangeInt 256 ((I : Int) * 10 ^ scale +
        (F : Int) * 10 ^ (scale - fp.length)) →
      inRangeInt 128 ((I : Int) * 10 ^ scale +
        (F : Int) * 10 ^ (scale - fp.length)) →
      parseStringToDecimalNative (String.mk (ip ++ '.' :: fp)) scale =
        .ok ((I : Int) * 10 ^ scale +
          (F : Int) * 10 ^ (scale - fp.length))) := by
  refine ⟨by rfl, by rfl, ?_, ?_⟩
  · intro ip fp scale I F h1 h2 h3 h4 h5 h6 h7 h8 h9 h10
    exact parse_round_general ip fp scale I F h1 h2 h3 h4 h5 h6 h7 h8 h9 h10
  · intro ip fp scale I F h1 h2 h3 h4 h5
    exact parse_pad_general ip fp scale I F h1 h2 h3 h4 h5

/-- Witness for C7: the two general branches applied at the concrete digit
lists of "123.4567891" (scale 5, rounding branch) and "123.45" (scale 5,
padding branch). -/
theorem claim_C7_witness :
    parseStringToDecimalNative
        (String.mk (['1', '2', '3'] ++ '.' ::
          ['4', '5', '6', '7', '8', '9', '1'])) 5 =
      .ok (((123 : Nat) : Int) * 10 ^ 5 +
        roundHalfAwayFromZeroSpec ((4567891 : Nat) : Int)
          ((10 : Int) ^
            ((['4', '5', '6', '7', '8', '9', '1'] : List Char).length - 5))) ∧
    parseStringToDecimalNative
        (String.mk (['1', '2', '3'] ++ '.' :: ['4', '5'])) 5 =
      .ok (((123 : Nat) : Int) * 10 ^ 5 +
        ((45 : Nat) : Int) * 10 ^ (5 - (['4', '5'] : List Char).length)) :=
  ⟨claim_C7.2.2.1 ['1', '2', '3'] ['4', '5', '6', '7', '8', '9', '1'] 5
      123 4567891 (by rfl) (by rfl) (by decide) (by decide) (by decide)
      (by decide) (by decide) (by decide) (by decide) (by decide),
   claim_C7.2.2.2 ['1', '2', '3'] ['4', '5'] 5 123 45 (by rfl) (by rfl)
      (by decide) (by decide) (by decide)⟩

end ArrowVerify
